import Mathlib

/-!
# BundleAlert wallet verification front end

A shallow embedding of the wallet connection/session manager, the verification
flow controller and the backend API client, with the properties proved about
them.

JavaScript values are embedded as follows: a string is a `String`; a value that
may be `null`/`undefined` is an `Option`; an `async` function is cut at its
`await`s, the awaited call's outcome being supplied by the environment.
-/

namespace BundleAlert

/-! ## JavaScript helpers -/

/-- JavaScript `haystack.includes(needle)`. The strings are compared character
by character; for the needles used here, all ASCII, that is the comparison of
UTF-16 code units that JavaScript makes. -/
def includes (haystack needle : String) : Bool :=
  haystack.data.tails.any (fun t => needle.data.isPrefixOf t)

/-- A thrown JavaScript value: `new Error(m)` has no `code`; SDK rejections may
carry one, and may lack a `message`. -/
structure JsError where
  code : Option Int
  message : Option String
  deriving DecidableEq, Repr

/-- The value of `new Error(m)`. -/
def mkError (m : String) : JsError := { code := none, message := some m }

/-- The value of `error.message?.includes(needle)` as a condition. -/
def JsError.msgIncludes (e : JsError) (needle : String) : Bool :=
  match e.message with
  | some m => includes m needle
  | none => false

/-- The text a template string or `+` gives for `error.message`. -/
def JsError.messageText (e : JsError) : String :=
  e.message.getD "undefined"

/-! ## `src/utils/constants.js` -/

namespace ERROR_MESSAGES

def WALLET_NOT_FOUND : String := "Wallet not found. Please install MetaMask or use WalletConnect."
def CONNECTION_REJECTED : String := "Connection rejected by user."
def NETWORK_ERROR : String := "Network error. Please check your connection."
def INVALID_SIGNATURE : String := "Invalid signature format."
def SERVER_ERROR : String := "Server error. Please try again later."
def RATE_LIMITED : String := "Too many requests. Please wait before trying again."
def UNAUTHORIZED : String := "Authentication failed. Please refresh and try again."

end ERROR_MESSAGES

/-! ## `src/utils/validation.js` -/

/-- The function `isValidChainId`: `[1].includes(parseInt(chainId))`, on a numeric chain id. -/
def isValidChainId (chainId : Int) : Bool :=
  [(1 : Int)].contains chainId

/-! ## `src/services/walletService.js` -/

/-- What `this.provider` wraps. -/
inductive ServiceProvider
  | browser        -- `new ethers.BrowserProvider(window.ethereum)`
  | walletConnect  -- `new ethers.BrowserProvider(wcProvider)`
  deriving DecidableEq, Repr

/-- The fields of the `WalletService` singleton. -/
structure WalletService where
  provider : Option ServiceProvider
  signer : Option Nat
  address : Option String
  chainId : Option Int
  isConnecting : Bool
  deriving DecidableEq, Repr

/-- The constructor of `WalletService`. -/
def WalletService.new : WalletService :=
  { provider := none, signer := none, address := none, chainId := none, isConnecting := false }

/-- The page environment the service reads. -/
structure ServiceEnv where
  /-- `window.ethereum?.isMetaMask` is truthy. -/
  ethereumIsMetaMask : Bool
  /-- `WALLET_CONFIG.projectId`. -/
  projectId : String
  deriving DecidableEq, Repr

/-- The methods of the service whose invocation is recorded. -/
inductive Method
  | connectMetaMask
  | connectWalletConnect
  deriving DecidableEq, Repr

/-- The `await` at which a running connection attempt is suspended, with the
locals it still needs. -/
inductive Await
  | ethRequestAccounts                                  -- `window.ethereum.request(eth_requestAccounts)`
  | mmGetSigner (accounts : List String)                -- `this.provider.getSigner()`
  | mmGetNetwork                                        -- `this.provider.getNetwork()`
  | mmSwitch                                            -- `this.switchToMainnet()`
  | wcInit                                              -- `this.initializeWalletConnect()`
  | wcConnect                                           -- `wcProvider.connect()`
  | wcGetSigner (accounts : List String) (chainId : Int) -- `this.provider.getSigner()`
  | wcSwitch                                            -- `this.switchToMainnet()`
  deriving DecidableEq, Repr

/-- What an awaited call settles with. -/
inductive Reply
  | accounts (l : List String)                       -- the account list
  | signer (id : Nat)                                -- a signer
  | network (chainId : Int)                          -- `Number(network.chainId)`
  | wcReady                                          -- `EthereumProvider.init` resolved
  | wcConnected (accounts : List String) (chainId : Int) -- `connect()` resolved; the provider's fields
  | done                                             -- resolved with no value
  | error (e : JsError)                              -- rejected
  deriving DecidableEq, Repr

/-- The value a connect call resolves with. -/
structure ConnectInfo where
  address : Option String
  chainId : Option Int
  provider : String
  deriving DecidableEq, Repr

/-- How a call of an `async` method stands after running up to its next `await`. -/
inductive Progress
  | threw (e : JsError)
  | returned (r : ConnectInfo)
  | awaiting (a : Await)
  deriving DecidableEq, Repr

/-- The service, the stored `STORAGE_KEYS.WALLET_ADDRESS`, the methods run, and
where the call stands. -/
structure Ran where
  svc : WalletService
  stored : Option String
  ran : List Method
  progress : Progress
  deriving DecidableEq, Repr

/-- The function `handleConnectionError`: always throws. -/
def handleConnectionError (error : JsError) : JsError :=
  if error.code = some 4001 then mkError ERROR_MESSAGES.CONNECTION_REJECTED
  else if error.code = some (-32002) then
    mkError "Connection request already pending. Please check your wallet."
  else
    match error.message with
    | some m => if m = "" then mkError ERROR_MESSAGES.NETWORK_ERROR else mkError m
    | none => mkError ERROR_MESSAGES.NETWORK_ERROR

/-- The `catch` and `finally` of `connectMetaMask` and `connectWalletConnect`
after the `try` body threw `error`. -/
def connectFailed (svc : WalletService) (stored : Option String) (error : JsError) : Ran :=
  { svc := { svc with isConnecting := false }, stored := stored, ran := [],
    progress := .threw (handleConnectionError error) }

/-- The end of the `try` body of a connect method, and its `finally`. -/
def connectDone (svc : WalletService) (providerName : String) : Ran :=
  { svc := { svc with isConnecting := false }, stored := svc.address, ran := [],
    progress := .returned { address := svc.address, chainId := svc.chainId, provider := providerName } }

/-- The call `this.switchToMainnet()` inside a connect method, up to its `await`. -/
def startSwitch (svc : WalletService) (stored : Option String) (next : Await) : Ran :=
  match svc.provider with
  | none => connectFailed svc stored (mkError "No provider available")
  | some _ => { svc := svc, stored := stored, ran := [], progress := .awaiting next }

/-- The method `connectMetaMask`, up to its first `await`. -/
def connectMetaMask (env : ServiceEnv) (svc : WalletService) (stored : Option String) : Ran :=
  if !env.ethereumIsMetaMask then
    { svc := svc, stored := stored, ran := [.connectMetaMask],
      progress := .threw (mkError ERROR_MESSAGES.WALLET_NOT_FOUND) }
  else
    { svc := { svc with isConnecting := true }, stored := stored, ran := [.connectMetaMask],
      progress := .awaiting .ethRequestAccounts }

/-- The method `connectWalletConnect`, up to its first `await`. -/
def connectWalletConnect (svc : WalletService) (stored : Option String) : Ran :=
  { svc := { svc with isConnecting := true }, stored := stored, ran := [.connectWalletConnect],
    progress := .awaiting .wcInit }

/-- The method `connect(providerType)`, up to its first `await`. -/
def connect (env : ServiceEnv) (svc : WalletService) (stored : Option String)
    (providerType : String) : Ran :=
  if svc.isConnecting then
    { svc := svc, stored := stored, ran := [],
      progress := .threw (mkError "Connection already in progress") }
  else if providerType = "metamask" then connectMetaMask env svc stored
  else if providerType = "walletconnect" then connectWalletConnect svc stored
  else
    { svc := svc, stored := stored, ran := [],
      progress := .threw (mkError ("Unsupported provider: " ++ providerType)) }

/-- The rejection of `initializeWalletConnect()` when `EthereumProvider.init`
(or the project-id check before it) threw `e`. -/
def initializeFailed (e : JsError) : JsError :=
  mkError ("Failed to initialize WalletConnect: " ++ e.messageText)

/-- A running attempt continues after its awaited call settled with `r`, up to
its next `await` or its end. `none`: `r` is not a result of the awaited call. -/
def resume (env : ServiceEnv) (svc : WalletService) (stored : Option String) :
    Await → Reply → Option Ran
  -- connectMetaMask
  | .ethRequestAccounts, .accounts l =>
    if l.length = 0 then some (connectFailed svc stored (mkError ERROR_MESSAGES.CONNECTION_REJECTED))
    else some { svc := { svc with provider := some .browser }, stored := stored, ran := [],
                progress := .awaiting (.mmGetSigner l) }
  | .ethRequestAccounts, .error e => some (connectFailed svc stored e)
  | .mmGetSigner l, .signer id =>
    some { svc := { svc with signer := some id, address := l.head? }, stored := stored, ran := [],
           progress := .awaiting .mmGetNetwork }
  | .mmGetSigner _, .error e => some (connectFailed svc stored e)
  | .mmGetNetwork, .network c =>
    let svc1 := { svc with chainId := some c }
    if !isValidChainId c then some (startSwitch svc1 stored .mmSwitch)
    else some (connectDone svc1 "metamask")
  | .mmGetNetwork, .error e => some (connectFailed svc stored e)
  | .mmSwitch, .done => some (connectDone { svc with chainId := some 1 } "metamask")
  | .mmSwitch, .error _ =>
    some (connectFailed svc stored (mkError "Please switch to Ethereum mainnet in your wallet"))
  -- connectWalletConnect; without a project id `initializeWalletConnect()` rejects
  -- before it reaches the SDK
  | .wcInit, .wcReady =>
    if env.projectId = "" then
      some (connectFailed svc stored (initializeFailed (mkError
        "WalletConnect Project ID is required. Please check your environment configuration.")))
    else some { svc := svc, stored := stored, ran := [], progress := .awaiting .wcConnect }
  | .wcInit, .error e =>
    if env.projectId = "" then
      some (connectFailed svc stored (initializeFailed (mkError
        "WalletConnect Project ID is required. Please check your environment configuration.")))
    else some (connectFailed svc stored (initializeFailed e))
  | .wcConnect, .wcConnected l c =>
    if l.length = 0 then some (connectFailed svc stored (mkError ERROR_MESSAGES.CONNECTION_REJECTED))
    else some { svc := { svc with provider := some .walletConnect }, stored := stored, ran := [],
                progress := .awaiting (.wcGetSigner l c) }
  | .wcConnect, .error e => some (connectFailed svc stored e)
  | .wcGetSigner l c, .signer id =>
    let svc1 := { svc with signer := some id, address := l.head?, chainId := some c }
    if !isValidChainId c then some (startSwitch svc1 stored .wcSwitch)
    else some (connectDone svc1 "walletconnect")
  | .wcGetSigner _ _, .error e => some (connectFailed svc stored e)
  | .wcSwitch, .done => some (connectDone { svc with chainId := some 1 } "walletconnect")
  | .wcSwitch, .error _ =>
    some (connectFailed svc stored (mkError "Please switch to Ethereum mainnet in your wallet"))
  | _, _ => none

/-- The service together with the connection attempts that have entered their
`try` block and not yet run their `finally`. -/
structure Sys where
  svc : WalletService
  stored : Option String
  inflight : List Await
  deriving DecidableEq, Repr

/-- A page just loaded: the singleton as constructed, nothing in flight. -/
def Sys.init : Sys := { svc := WalletService.new, stored := none, inflight := [] }

/-- What happens to the service: a caller calls `connect`, or the call awaited
by the `i`-th running attempt settles. -/
inductive Event
  | connect (providerType : String)
  | settle (i : Nat) (r : Reply)
  deriving DecidableEq, Repr

/-- One event. -/
def Sys.step (env : ServiceEnv) (s : Sys) : Event → Sys
  | .connect providerType =>
    let r := connect env s.svc s.stored providerType
    match r.progress with
    | .awaiting a => { svc := r.svc, stored := r.stored, inflight := a :: s.inflight }
    | _ => { svc := r.svc, stored := r.stored, inflight := s.inflight }
  | .settle i reply =>
    match s.inflight.get? i with
    | none => s
    | some a =>
      match resume env s.svc s.stored a reply with
      | none => s
      | some r =>
        match r.progress with
        | .awaiting a1 => { svc := r.svc, stored := r.stored, inflight := s.inflight.set i a1 }
        | _ => { svc := r.svc, stored := r.stored, inflight := s.inflight.eraseIdx i }

/-- A sequence of events from a freshly loaded page. -/
def Sys.run (env : ServiceEnv) (evs : List Event) : Sys :=
  evs.foldl (Sys.step env) Sys.init

/-- The guard invariant: at most one attempt is running, and the flag is set
exactly while one is. -/
def Sys.Guarded (s : Sys) : Prop :=
  s.inflight.length ≤ 1 ∧ (s.svc.isConnecting = true ↔ s.inflight ≠ [])

/-! ## `src/contexts/WalletContext.jsx`: state and reducer -/

/-- An `ethers.BrowserProvider` held by the wallet state. -/
structure EthersProvider where
  /-- It wraps the relay provider rather than `window.ethereum`. -/
  relay : Bool
  /-- The object has a `disconnect` property. -/
  hasDisconnect : Bool
  deriving DecidableEq, Repr

/-- The value of the wallet reducer state. -/
structure WalletState where
  provider : Option EthersProvider
  account : Option String
  chainId : Option Int
  isConnected : Bool
  isConnecting : Bool
  error : Option String
  balance : Option String
  signature : Option String
  deriving DecidableEq, Repr

/-- The constant `initialState`. -/
def initialState : WalletState :=
  { provider := none, account := none, chainId := none, isConnected := false,
    isConnecting := false, error := none, balance := none, signature := none }

/-- The actions dispatched to `walletReducer`. -/
inductive Action
  | SET_CONNECTING (payload : Bool)
  | SET_CONNECTED (provider : EthersProvider) (account : String) (chainId : Int)
  | SET_DISCONNECTED
  | SET_ERROR (payload : String)
  | SET_BALANCE (payload : String)
  | SET_SIGNATURE (payload : String)
  | other
  deriving DecidableEq, Repr

/-- The function `walletReducer`. -/
def walletReducer (state : WalletState) : Action → WalletState
  | .SET_CONNECTING payload => { state with isConnecting := payload, error := none }
  | .SET_CONNECTED provider account chainId =>
    { state with provider := some provider, account := some account, chainId := some chainId,
                 isConnected := true, isConnecting := false, error := none }
  | .SET_DISCONNECTED => initialState
  | .SET_ERROR payload => { state with error := some payload, isConnecting := false }
  | .SET_BALANCE payload => { state with balance := some payload }
  | .SET_SIGNATURE payload => { state with signature := some payload }
  | .other => state

/-- The function `getWalletErrorMessage`. -/
def getWalletErrorMessage (error : JsError) : String :=
  if error.code = some 4001 then "Connection rejected by user"
  else if error.code = some (-32002) then "Connection request pending. Please check your wallet."
  else if error.code = some (-32603) then "Internal wallet error. Please try again."
  else if error.msgIncludes "User rejected" then "Connection rejected by user"
  else if error.msgIncludes "Already processing" then "Connection already in progress"
  else if error.msgIncludes "WalletConnect initialization timeout" then
    "WalletConnect initialization timed out - this may happen in Telegram miniapps. Please try again or use a different browser."
  else if error.msgIncludes "WalletConnect enable timeout" then
    "WalletConnect connection timed out - this may happen in Telegram miniapps. Please try again or use a different browser."
  else if error.msgIncludes "Signature request timed out" then
    "Signature request timed out. This can happen in Telegram miniapps when switching between apps. Please try again."
  else if error.msgIncludes "Request expired" then
    "Signature request expired. Please try again - this can happen in Telegram miniapps when the wallet takes too long to respond."
  else if error.msgIncludes "User rejected the request" || error.msgIncludes "User denied" then
    "Signature rejected by user"
  else if error.msgIncludes "timeout" then "Connection timeout - please try again"
  else if error.msgIncludes "connect() before request" then
    "Wallet session expired - please reconnect"
  else if error.msgIncludes "connection" || error.msgIncludes "disconnect" then
    "Wallet connection lost during process"
  else if error.msgIncludes "session" then "Session expired - please reconnect"
  else if error.msgIncludes "Project ID not configured" then
    "WalletConnect not properly configured - contact support"
  else
    match error.message with
    | some m => if m = "" then "Failed to connect wallet" else m
    | none => "Failed to connect wallet"

/-! ## The page: transport handle, storage, requests issued -/

/-- The fields of the relay provider object that the code reads. -/
structure WcProvider where
  connected : Bool
  /-- The field `accounts`; `none` when undefined. -/
  accounts : Option (List String)
  /-- The field `session` is truthy. -/
  session : Bool
  deriving DecidableEq, Repr

/-- The condition `!wcProvider.connected || !wcProvider.accounts?.length`. -/
def WcProvider.inactive (wc : WcProvider) : Bool :=
  !wc.connected || (wc.accounts.getD []).length = 0

/-- A `Storage` object (`localStorage`, `sessionStorage`): keys with their values. -/
abbrev Storage := List (String × String)

/-- The value of `Object.keys(storage)`. -/
def Storage.keys (s : Storage) : List String := s.map Prod.fst

/-- The call `storage.removeItem(key)`. -/
def Storage.removeItem (s : Storage) (key : String) : Storage :=
  s.filter (fun p => p.1 != key)

/-- The call `storage.getItem(key)`. -/
def Storage.getItem (s : Storage) (key : String) : Option String :=
  (s.find? (fun p => p.1 == key)).map Prod.snd

/-- The loop `Object.keys(storage).forEach(key => { if (marked(key)) storage.removeItem(key) })`. -/
def Storage.purge (marked : String → Bool) (s : Storage) : Storage :=
  s.keys.foldl (fun st key => if marked key then st.removeItem key else st) s

/-- The key test of `forceCleanup`. -/
def forceCleanupMarked (key : String) : Bool :=
  includes key "walletconnect" || includes key "wc@2"

/-- The key test of the cleanups inside `connectWallet`. -/
def connectMarked (key : String) : Bool :=
  includes key "walletconnect" || includes key "wc@2" || includes key "WALLETCONNECT"

/-- A request issued to the SDK, the transport, the signer or the toaster. -/
inductive Effect
  | ethRequestAccounts                      -- `window.ethereum.request(eth_requestAccounts)`
  | sdkInit                                 -- `EthereumProvider.init(...)`
  | enable                                  -- `wcProvider.enable()`
  | wcDisconnect                            -- `disconnect()` of a relay provider
  | providerDisconnect                      -- `state.provider.disconnect()`
  | getSigner                               -- `provider.getSigner()`
  | getAddress                              -- `signer.getAddress()`
  | getNetwork                              -- `provider.getNetwork()`
  | getBalance (account : String)           -- `provider.getBalance(account)`
  | ethAccounts                             -- `wcProvider.request(eth_accounts)`
  | personalSign (messageHex fromAddr : String) -- `wcProvider.request(personal_sign, [messageHex, fromAddr])`
  | signerSignMessage (message : String)    -- `signer.signMessage(message)`
  | toastSuccess (text : String)
  | toastError (text : String)
  deriving DecidableEq, Repr

/-- The page as the wallet context sees it. -/
structure World where
  /-- The global `window.__walletConnectProvider`. -/
  handle : Option WcProvider
  /-- The reducer state. -/
  state : WalletState
  localStorage : Storage
  sessionStorage : Storage
  /-- The requests issued so far, oldest first. -/
  log : List Effect
  deriving DecidableEq, Repr

/-- The call `dispatch(action)`. -/
def World.dispatch (w : World) (action : Action) : World :=
  { w with state := walletReducer w.state action }

/-- A request is issued. -/
def World.emit (w : World) (e : Effect) : World :=
  { w with log := w.log ++ [e] }

/-- The statement `delete window.__walletConnectProvider`. -/
def World.deleteHandle (w : World) : World :=
  { w with handle := none }

/-- How an awaited call that yields no value settles. -/
inductive Settled
  | resolved
  | rejected (e : JsError)
  deriving DecidableEq, Repr

/-! ## `src/contexts/WalletContext.jsx`: `connectWallet` -/

/-- What `connectWallet` reads from the page and the build. -/
structure PageEnv where
  /-- `window.ethereum` is truthy. -/
  hasEthereum : Bool
  /-- `import.meta.env.VITE_WALLETCONNECT_PROJECT_ID`. -/
  projectId : Option String
  /-- An `ethers.BrowserProvider` object has a `disconnect` property. -/
  providerHasDisconnect : Bool
  deriving DecidableEq, Repr

/-- The `await` at which a running `connectWallet` is suspended, with the locals
it still needs. -/
inductive CwAwait
  | requestAccounts                          -- `window.ethereum.request(eth_requestAccounts)`
  | cleanupDisconnect                        -- `existingProvider.disconnect()`
  | init                                     -- the race of `EthereumProvider.init` with the 20 s timer
  | resetDisconnect                          -- `wcProvider.disconnect()` of an inconsistent provider
  | enable                                   -- the race of `wcProvider.enable()` with the 30 s timer
  | failedDisconnect (enableError : JsError) -- `wcProvider.disconnect()` after a failed enable
  | getSigner (provider : EthersProvider)    -- `provider.getSigner()`
  | getAddress (provider : EthersProvider)   -- `signer.getAddress()`
  | getNetwork (provider : EthersProvider) (account : String) -- `provider.getNetwork()`
  | getBalance (provider : EthersProvider) (account : String) (chainId : Int)
                                             -- the race of `provider.getBalance` with the 10 s timer
  | catchDisconnect (error : JsError)        -- `wcProvider.disconnect()` in the outer `catch`
  deriving DecidableEq, Repr

/-- What the call awaited by `connectWallet` settles with. -/
inductive CwReply
  | accounts (l : List String)                  -- the account list
  | done                                        -- resolved, the value unused
  | provider (wc : WcProvider)                  -- `init`/`enable` resolved; the provider's fields then
  | address (a : String)                        -- the signer's address
  | network (chainId : Int)                     -- `Number(network.chainId)`
  | balance (formatted : String)                -- `ethers.formatEther(balance)`
  | error (e : JsError)                         -- rejected
  | enableFailed (e : JsError) (connected : Bool) -- `enable` rejected; `wcProvider.connected` then
  | timeout                                     -- the timer of the race fired first
  | enableTimeout (connected : Bool)            -- the 30 s timer fired first; `wcProvider.connected` then
  deriving DecidableEq, Repr

/-- The value `connectWallet` resolves with. -/
structure CwResult where
  provider : EthersProvider
  account : String
  chainId : Int
  balance : String
  deriving DecidableEq, Repr

/-- How a call of `connectWallet` stands after running up to its next `await`. -/
inductive CwProgress
  | awaiting (a : CwAwait)
  | returned (r : CwResult)
  | threw (e : JsError)
  deriving DecidableEq, Repr

/-- The end of the outer `catch` of `connectWallet`. -/
def cwFinish (w : World) (error : JsError) : World × CwProgress :=
  let errorMessage := getWalletErrorMessage error
  ((w.dispatch (.SET_ERROR errorMessage)).emit (.toastError errorMessage), .threw error)

/-- The outer `catch` of `connectWallet`, up to its `await`. -/
def cwCatch (w : World) (error : JsError) : World × CwProgress :=
  match w.handle with
  | some _ =>
    if error.msgIncludes "timeout" || error.msgIncludes "Connection" then
      (w.emit .wcDisconnect, .awaiting (.catchDisconnect error))
    else cwFinish w error
  | none => cwFinish w error

/-- From the check `accounts.length === 0` to `provider.getSigner()`. -/
def cwAfterAccounts (w : World) (provider : EthersProvider) (accounts : List String) :
    World × CwProgress :=
  if accounts.length = 0 then cwCatch w (mkError "No accounts found")
  else (w.emit .getSigner, .awaiting (.getSigner provider))

/-- The project id is missing or a placeholder. -/
def projectIdMissing (projectId : Option String) : Bool :=
  match projectId with
  | none => true
  | some p => p = "" || p = "your_walletconnect_project_id" ||
      p = "your_walletconnect_project_id_here"

/-- The relay path from the storage cleanup to `EthereumProvider.init`. -/
def cwAfterCleanup (env : PageEnv) (w : World) : World × CwProgress :=
  let w1 := { w with localStorage := Storage.purge connectMarked w.localStorage,
                     sessionStorage := Storage.purge connectMarked w.sessionStorage }
  if projectIdMissing env.projectId then
    cwCatch w1 (mkError
      "WalletConnect Project ID not configured. Please check your environment variables.")
  else (w1.emit .sdkInit, .awaiting .init)

/-- The function `connectWallet(walletType)`, up to its first `await`. -/
def connectWallet (env : PageEnv) (w : World) (walletType : String) : World × CwProgress :=
  let w1 := w.dispatch (.SET_CONNECTING true)
  if walletType = "metamask" ∧ env.hasEthereum = true then
    (w1.emit .ethRequestAccounts, .awaiting .requestAccounts)
  else
    match w1.handle with
    | some _ => (w1.emit .wcDisconnect, .awaiting .cleanupDisconnect)
    | none => cwAfterCleanup env w1

/-- The listeners are registered and `wcProvider.enable()` is called. -/
def cwStartEnable (w : World) : World × CwProgress :=
  (w.emit .enable, .awaiting .enable)

/-- The rethrow at the end of the `catch (enableError)` block. -/
def cwEnableRethrow (w : World) (enableError : JsError) : World × CwProgress :=
  let w1 := w.deleteHandle
  if enableError.msgIncludes "User rejected" then
    cwCatch { w1 with localStorage := Storage.purge connectMarked w1.localStorage }
      (mkError "Connection was declined in your wallet app. Please try again and approve the connection request.")
  else if enableError.msgIncludes "WalletConnect enable timeout" then
    cwCatch w1 (mkError "WalletConnect connection timed out - this may happen in Telegram miniapps. Please try again or use a different browser.")
  else if enableError.msgIncludes "timeout" then
    cwCatch w1 (mkError "Connection timeout - please try again")
  else
    cwCatch w1 (mkError ("Failed to connect to wallet: " ++ enableError.messageText ++
      " - please try again"))

/-- The `catch (enableError)` block, up to its `await`; `connected` is
`wcProvider.connected` at that moment. -/
def cwEnableCatch (w : World) (enableError : JsError) (connected : Bool) : World × CwProgress :=
  if connected then (w.emit .wcDisconnect, .awaiting (.failedDisconnect enableError))
  else cwEnableRethrow w enableError

/-- The two dispatches, the toast and the `return` that end a successful connect. -/
def cwConnected (w : World) (provider : EthersProvider) (account : String) (chainId : Int)
    (balanceInEth : String) : World × CwProgress :=
  ((((w.dispatch (.SET_CONNECTED provider account chainId)).dispatch
      (.SET_BALANCE balanceInEth)).emit (.toastSuccess "Wallet connected successfully!")),
    .returned { provider := provider, account := account, chainId := chainId,
                balance := balanceInEth })

/-- A running `connectWallet` continues after its awaited call settled with
`r`, up to its next `await` or its end. `none`: `r` is not a result of the
awaited call. -/
def connectWalletResume (env : PageEnv) (w : World) : CwAwait → CwReply → Option (World × CwProgress)
  -- browser-extension path
  | .requestAccounts, .accounts l =>
    some (cwAfterAccounts w { relay := false, hasDisconnect := env.providerHasDisconnect } l)
  | .requestAccounts, .error e => some (cwCatch w e)
  -- relay path
  | .cleanupDisconnect, .done => some (cwAfterCleanup env w.deleteHandle)
  | .cleanupDisconnect, .error _ => some (cwAfterCleanup env w.deleteHandle)
  | .init, .provider wc =>
    let w1 := { w with handle := some wc }
    if wc.connected && ((wc.accounts.getD []).length = 0) && !wc.session then
      some (w1.emit .wcDisconnect, .awaiting .resetDisconnect)
    else some (cwStartEnable w1)
  | .init, .error e => some (cwCatch w e)
  | .init, .timeout =>
    some (cwCatch w (mkError "WalletConnect initialization timeout (20 seconds)"))
  | .resetDisconnect, .done => some (cwStartEnable w)
  | .resetDisconnect, .error _ => some (cwStartEnable w)
  | .enable, .provider wc =>
    let w1 := { w with handle := w.handle.map (fun _ => wc) }
    if wc.inactive then
      some (cwEnableCatch w1 (mkError "WalletConnect connection failed - no accounts found")
        wc.connected)
    else
      some (cwAfterAccounts w1 { relay := true, hasDisconnect := env.providerHasDisconnect }
        (wc.accounts.getD []))
  | .enable, .enableFailed e connected => some (cwEnableCatch w e connected)
  | .enable, .enableTimeout connected =>
    some (cwEnableCatch w (mkError "WalletConnect enable timeout (30 seconds)") connected)
  | .failedDisconnect enableError, .done => some (cwEnableRethrow w enableError)
  | .failedDisconnect enableError, .error _ => some (cwEnableRethrow w enableError)
  -- both paths
  | .getSigner p, .done => some (w.emit .getAddress, .awaiting (.getAddress p))
  | .getSigner _, .error e => some (cwCatch w e)
  | .getAddress p, .address a => some (w.emit .getNetwork, .awaiting (.getNetwork p a))
  | .getAddress _, .error e => some (cwCatch w e)
  | .getNetwork p a, .network c => some (w.emit (.getBalance a), .awaiting (.getBalance p a c))
  | .getNetwork _ _, .error e => some (cwCatch w e)
  | .getBalance p a c, .balance b => some (cwConnected w p a c b)
  | .getBalance p a c, .error _ => some (cwConnected w p a c "0.0")
  | .getBalance p a c, .timeout => some (cwConnected w p a c "0.0")
  -- outer catch
  | .catchDisconnect error, .done => some (cwFinish w.deleteHandle error)
  | .catchDisconnect error, .error _ => some (cwFinish w.deleteHandle error)
  | _, _ => none

/-- A call of `connectWallet(walletType)` followed by the settlements `replies`
of its awaited calls, in order; a reply that does not belong to the awaited
call is skipped, and so is every reply after the call has ended. -/
def connectWalletRun (env : PageEnv) (w : World) (walletType : String) (replies : List CwReply) :
    World × CwProgress :=
  replies.foldl
    (fun (st : World × CwProgress) r =>
      match st.2 with
      | .awaiting a => (connectWalletResume env st.1 a r).getD st
      | _ => st)
    (connectWallet env w walletType)

/-! ### The listeners `connectWallet` registers on the relay provider -/

/-- The listeners of `disconnect`, `session_delete`, `session_expire` and `session_reject`. -/
def onSessionEnded (w : World) : World :=
  w.deleteHandle.dispatch .SET_DISCONNECTED

/-- The listener of `accountsChanged`. -/
def onAccountsChanged (w : World) (accounts : List String) : World :=
  if accounts.length = 0 then w.deleteHandle.dispatch .SET_DISCONNECTED
  else w

/-- The listener of `chainChanged`: it only logs. -/
def onChainChanged (w : World) (_chainId : String) : World := w

/-! ## Backend responses -/

/-- The JSON object in the body of a backend response, as far as the client
reads it; the rest of it is `payload`. -/
structure Body where
  token : Option String
  error : Option String
  payload : String
  deriving DecidableEq, Repr

/-! ## `src/contexts/WalletContext.jsx`: `disconnect`, `forceCleanup`, `signMessage` -/

/-- How a call ends: with a value or with a thrown error. -/
inductive Outcome (α : Type)
  | returned (value : α)
  | threw (e : JsError)
  deriving DecidableEq, Repr

/-- The function `disconnect()`. The two arguments say how
`wcProvider.disconnect()` and `state.provider.disconnect()` settle when called. -/
def disconnect (w : World) (wcDisconnect providerDisconnect : Settled) : World × Outcome Unit :=
  let forced : World → World × Outcome Unit := fun w1 =>
    -- the `catch` block
    (w1.deleteHandle.dispatch .SET_DISCONNECTED, .returned ())
  let regular : World → World × Outcome Unit := fun w1 =>
    -- from `if (state.provider && state.provider.disconnect)` on
    let finish : World → World × Outcome Unit := fun w2 =>
      ((w2.dispatch .SET_DISCONNECTED).emit (.toastSuccess "Wallet disconnected"), .returned ())
    match w.state.provider with
    | some p =>
      if p.hasDisconnect then
        match providerDisconnect with
        | .resolved => finish (w1.emit .providerDisconnect)
        | .rejected _ => forced (w1.emit .providerDisconnect)
      else finish w1
    | none => finish w1
  match w.handle with
  | some _ =>
    match wcDisconnect with
    | .resolved => regular (w.emit .wcDisconnect).deleteHandle
    | .rejected _ => forced (w.emit .wcDisconnect)
  | none => regular w

/-- The function `forceCleanup()`. -/
def forceCleanup (w : World) : World × Outcome Bool :=
  let w1 := w.deleteHandle.dispatch .SET_DISCONNECTED
  ({ w1 with localStorage := Storage.purge forceCleanupMarked w1.localStorage,
             sessionStorage := Storage.purge forceCleanupMarked w1.sessionStorage },
   .returned true)

/-- JavaScript truthiness of a string that may be missing. -/
def truthy (s : Option String) : Bool :=
  match s with
  | some v => v != ""
  | none => false

/-- JavaScript `a || b` on strings that may be missing. -/
def strOr (a b : Option String) : Option String :=
  if truthy a then a else b

/-- The second argument of `signMessage`. -/
structure SignOptions where
  provider : Option EthersProvider
  account : Option String
  deriving DecidableEq, Repr

/-- How the calls `signMessage` may await settle. -/
structure SignReplies where
  /-- The request `eth_accounts`; `none` is a null result. -/
  ethAccounts : Except JsError (Option (List String))
  /-- The request `personal_sign`. -/
  personalSign : Except JsError String
  /-- The call `provider.getSigner()`. -/
  getSigner : Settled
  /-- The call `signer.signMessage(message)`. -/
  signerSignMessage : Except JsError String
  /-- The field `connected` of the global handle when the `catch` block reads it. -/
  connectedAtCatch : Bool

/-- One byte as two lower-case hexadecimal digits. -/
def hexByte (b : UInt8) : List Char :=
  [Nat.digitChar (b.toNat / 16), Nat.digitChar (b.toNat % 16)]

/-- The value of `ethers.hexlify(ethers.toUtf8Bytes(message))`. -/
def messageHex (message : String) : String :=
  ⟨'0' :: 'x' :: message.toUTF8.data.toList.flatMap hexByte⟩

/-- JavaScript `s.toLowerCase()` on a string of ASCII characters, as an account
address is: the letters `A` to `Z` become `a` to `z`. -/
def toLowerCase (s : String) : String := s.toLower

/-- The `catch` block of `signMessage`. -/
def signMessageCatch (w : World) (connectedAtCatch : Bool) (error : JsError) :
    World × Outcome String :=
  let w1 :=
    if error.msgIncludes "connection" || error.msgIncludes "disconnect" ||
        error.msgIncludes "connect() before request" || error.code = some 4001 then
      match w.handle with
      | some _ => if !connectedAtCatch then w.deleteHandle.dispatch .SET_DISCONNECTED else w
      | none => w
    else w
  let errorMessage := getWalletErrorMessage error
  ((w1.dispatch (.SET_ERROR errorMessage)).emit (.toastError errorMessage), .threw error)

/-- The function `signMessage(message, options)`; `state` is the one in `w`. -/
def signMessage (w : World) (message : String) (options : SignOptions) (replies : SignReplies) :
    World × Outcome String :=
  let provider := options.provider <|> w.state.provider
  let account := strOr options.account w.state.account
  match provider, truthy account with
  | none, _ => signMessageCatch w replies.connectedAtCatch (mkError "Wallet not connected")
  | some _, false => signMessageCatch w replies.connectedAtCatch (mkError "Wallet not connected")
  | some _, true =>
    match w.handle with
    | some wcProvider =>
      if wcProvider.inactive then
        signMessageCatch (w.deleteHandle.dispatch .SET_DISCONNECTED) replies.connectedAtCatch
          (mkError "Wallet connection lost - please reconnect")
      else
        let w1 := w.emit .ethAccounts
        let sessionAlive : Bool :=
          match replies.ethAccounts with
          | .ok (some currentAccounts) => currentAccounts.length != 0
          | _ => false
        if !sessionAlive then
          signMessageCatch (w1.deleteHandle.dispatch .SET_DISCONNECTED) replies.connectedAtCatch
            (mkError "Wallet connection lost during process - please reconnect")
        else
          let w2 := w1.emit (.personalSign (messageHex message) (toLowerCase (account.getD "")))
          match replies.personalSign with
          | .ok signature => (w2.dispatch (.SET_SIGNATURE signature), .returned signature)
          | .error e => signMessageCatch w2 replies.connectedAtCatch e
    | none =>
      let w1 := w.emit .getSigner
      match replies.getSigner with
      | .rejected e => signMessageCatch w1 replies.connectedAtCatch e
      | .resolved =>
        let w2 := w1.emit (.signerSignMessage message)
        match replies.signerSignMessage with
        | .ok signature => (w2.dispatch (.SET_SIGNATURE signature), .returned signature)
        | .error e => signMessageCatch w2 replies.connectedAtCatch e

/-! ## `src/components/WalletConnect/WalletConnect.jsx`: `handleConnectWallet` -/

/-- The constant `VERIFICATION_MESSAGE`. -/
def VERIFICATION_MESSAGE : String :=
  "Sign this message to verify your wallet ownership for BundleAlert Bot. This is a read-only verification and will not grant any spending permissions."

/-- The argument of `verifyWallet`. -/
structure VerifyArgs where
  walletAddress : String
  signature : String
  message : String
  deriving DecidableEq, Repr

/-- What `handleConnectWallet` does to its surroundings: toasts, haptics, the
callbacks of the flow controller, and the calls into the wallet context and the
API client. -/
inductive FlowEffect
  | toastError (text : String)
  | toastSuccess (text : String)
  | toastLoading (text : String)
  | toastDismiss (id : String)
  | hapticFeedback (kind : String)
  | consoleError (text : String)
  | onConnectionStart
  | onVerificationStart
  | onSuccess (result : Option Body)
  | onError (errorMessage : String)
  | connectWallet (walletType : String)
  | signMessage (message : String) (options : SignOptions)
  | verifyWallet (args : VerifyArgs)
  deriving DecidableEq, Repr

/-- The `useState` values of the component and what it has done so far. -/
structure Component where
  selectedWallet : Option String
  isConnecting : Bool
  isVerifying : Bool
  log : List FlowEffect
  deriving DecidableEq, Repr

/-- The component as first rendered. -/
def Component.initial : Component :=
  { selectedWallet := none, isConnecting := false, isVerifying := false, log := [] }

/-- What the component reads from the Telegram context. -/
structure ComponentEnv where
  /-- `tg && tg.platform` is truthy. -/
  isTelegramMiniApp : Bool
  isTelegramReady : Bool
  deriving DecidableEq, Repr

/-- Some effects happen, in order. -/
def Component.emit (c : Component) (es : List FlowEffect) : Component :=
  { c with log := c.log ++ es }

/-- The `finally` block of `handleConnectWallet`. -/
def Component.settle (c : Component) : Component :=
  { c with isConnecting := false, isVerifying := false, selectedWallet := none }

/-- The `await` at which a running `handleConnectWallet` is suspended. -/
inductive HcAwait
  | connection                        -- the race of `connectWallet(walletType)` with the 45 s timer
  | signature (walletAddress : String) -- `signMessage(VERIFICATION_MESSAGE, ...)`
  | verification                      -- `verifyWallet(...)`
  deriving DecidableEq, Repr

/-- What the call awaited by `handleConnectWallet` settles with. -/
inductive HcReply
  | connected (connectionResult : Option CwResult) -- `connectWallet` resolved
  | signature (signature : Option String)          -- `signMessage` resolved
  | verified (result : Option Body)                -- `verifyWallet` resolved with `response.data`
  | error (e : JsError)                            -- the awaited call rejected
  | timeout                                        -- the 45 s timer fired first
  deriving DecidableEq, Repr

/-- How a call of `handleConnectWallet` stands. -/
inductive HcProgress
  | awaiting (a : HcAwait)
  | finished
  deriving DecidableEq, Repr

/-- The error mapping in the `catch` block of `handleConnectWallet`: the
message handed to `onError` and the text of the error toast. -/
def hcErrorMessage (error : JsError) : String × String :=
  if error.msgIncludes "No token provided" then
    ("Authentication failed - please try again", "🔐 Authentication failed - server error")
  else if error.msgIncludes "Bot token not configured" then
    ("Server configuration issue - please contact support", "⚠️ Server error")
  else if error.msgIncludes "Authentication required but failed" then
    ("Authentication failed - please try again", "🔑 Telegram authentication failed")
  else if error.msgIncludes "Network Error" || error.msgIncludes "timeout" then
    ("Network connection failed - please check your connection and try again",
     "🌐 Network connection failed")
  else if error.msgIncludes "Project ID not configured" then
    ("WalletConnect configuration issue - please contact support",
     "⚙️ WalletConnect configuration error")
  else if error.msgIncludes "connect() before request" then
    ("Session expired during verification - please try again",
     "⏰ Session expired during verification")
  else if error.msgIncludes "User rejected" then
    ("Connection or signature was rejected", "❌ User rejected request")
  else
    (match error.message with
     | some m => if m = "" then "Failed to connect or verify wallet" else m
     | none => "Failed to connect or verify wallet",
     "❌ Error!")

/-- The `catch` and `finally` blocks of `handleConnectWallet`. -/
def hcCatch (c : Component) (error : JsError) : Component × HcProgress :=
  let mapped := hcErrorMessage error
  ((c.emit [.consoleError "Wallet connection error!", .toastDismiss "auth",
            .toastDismiss "signature", .toastDismiss "verification", .hapticFeedback "error",
            .toastError mapped.2, .onError mapped.1]).settle,
   .finished)

/-- The function `handleConnectWallet(walletType)`, up to its first `await`.
The call `connectWallet(walletType)` it makes runs up to its own first `await`;
where that call stands is the third component. `none` there: it was not called. -/
def handleConnectWallet (cenv : ComponentEnv) (env : PageEnv) (w : World) (c : Component)
    (walletType : String) : World × Component × Option CwProgress × HcProgress :=
  if cenv.isTelegramMiniApp && !cenv.isTelegramReady then
    (w, (c.emit [.toastError "❌ Telegram not ready yet - please try again!"]).settle,
     none, .finished)
  else
    let c1 := { c.emit [.hapticFeedback "light"] with
                isConnecting := true, selectedWallet := some walletType }
    let c2 := c1.emit [.onConnectionStart]
    let c3 :=
      if cenv.isTelegramMiniApp then
        c2.emit [.toastLoading
          "You'll be redirected to your wallet app to Approve and Sign verification!"]
      else c2
    let started := connectWallet env w walletType
    (started.1, c3.emit [.connectWallet walletType], some started.2, .awaiting .connection)

/-- A running `handleConnectWallet` continues after its awaited call settled
with `r`, up to its next `await` or its end; it reads the global handle of `w`.
`none`: `r` is not a result of the awaited call. -/
def handleConnectWalletResume (cenv : ComponentEnv) (w : World) (c : Component) :
    HcAwait → HcReply → Option (Component × HcProgress)
  | .connection, .timeout => some (hcCatch c (mkError "Wallet connection timeout (45 seconds)"))
  | .connection, .error e => some (hcCatch c e)
  | .connection, .connected connectionResult =>
    match connectionResult with
    | none => some (hcCatch c (mkError "Failed to connect wallet"))
    | some r =>
      if r.account = "" then some (hcCatch c (mkError "Failed to connect wallet"))
      else
        let c1 := { c.emit [.toastDismiss "wallet-instructions",
                            .toastSuccess "✅ Connected! Requesting signature...",
                            .onVerificationStart] with isVerifying := true }
        let sessionLost : Bool :=
          match w.handle with
          | some wcProvider => wcProvider.inactive
          | none => false
        if sessionLost then
          some (hcCatch c1
            (mkError "WalletConnect session expired immediately after connection"))
        else
          let c2 := c1.emit [.toastDismiss "auth"]
          let c3 :=
            if cenv.isTelegramMiniApp then
              c2.emit [.toastLoading "Sign the read-only verification message in your wallet!"]
            else c2.emit [.toastLoading "Please sign the message in your wallet..."]
          some (c3.emit [.signMessage VERIFICATION_MESSAGE
                          { provider := some r.provider, account := some r.account }],
                .awaiting (.signature r.account))
  | .signature _, .error e => some (hcCatch c e)
  | .signature walletAddress, .signature signature =>
    match signature with
    | none => some (hcCatch c (mkError "Failed to get signature from wallet"))
    | some s =>
      if s = "" then some (hcCatch c (mkError "Failed to get signature from wallet"))
      else
        some (c.emit [.toastDismiss "signature", .toastDismiss "signature-instructions",
                      .toastLoading "Verifying with server...",
                      .verifyWallet { walletAddress := walletAddress, signature := s,
                                      message := VERIFICATION_MESSAGE }],
              .awaiting .verification)
  | .verification, .error e => some (hcCatch c e)
  | .verification, .verified result =>
    some ((c.emit [.toastSuccess "🎉 Verification complete!", .hapticFeedback "success",
                   .onSuccess result]).settle,
          .finished)
  | _, _ => none

/-! ### The race of `connectWallet` with the outer timer -/

/-- The page while `handleConnectWallet` runs: the world, the component, where
the `connectWallet` call it started stands, and where it stands itself. -/
structure Page where
  world : World
  component : Component
  connectCall : Option CwProgress
  handler : HcProgress
  deriving DecidableEq, Repr

/-- The handler is given the outcome of the race, if it is waiting for it. -/
def Page.raceSettles (cenv : ComponentEnv) (p : Page) (r : HcReply) : Page :=
  match p.handler with
  | .awaiting .connection =>
    match handleConnectWalletResume cenv p.world p.component .connection r with
    | some (c, h) => { p with component := c, handler := h }
    | none => p
  | _ => p

/-- The outcome of `connectWallet`, once it has ended, reaches the race; an
outcome that arrives after the timer has fired is discarded. -/
def Page.deliver (cenv : ComponentEnv) (p : Page) : Page :=
  match p.connectCall with
  | some (.returned r) => p.raceSettles cenv (.connected (some r))
  | some (.threw e) => p.raceSettles cenv (.error e)
  | _ => p

/-- The user action: `handleConnectWallet(walletType)` is called. -/
def Page.start (cenv : ComponentEnv) (env : PageEnv) (w : World) (c : Component)
    (walletType : String) : Page :=
  let r := handleConnectWallet cenv env w c walletType
  Page.deliver cenv { world := r.1, component := r.2.1, connectCall := r.2.2.1, handler := r.2.2.2 }

/-- The call awaited by the running `connectWallet` settles with `r`. -/
def Page.connectSettles (cenv : ComponentEnv) (env : PageEnv) (p : Page) (r : CwReply) : Page :=
  match p.connectCall with
  | some (.awaiting a) =>
    match connectWalletResume env p.world a r with
    | some (w, progress) => Page.deliver cenv { p with world := w, connectCall := some progress }
    | none => p
  | _ => p

/-- The 45 s timer fires: the race is lost by `connectWallet`, which is not
cancelled. -/
def Page.outerTimeout (cenv : ComponentEnv) (p : Page) : Page :=
  p.raceSettles cenv .timeout

/-- The page on which the relay connect loses the race: `handleConnectWallet`
is called on a fresh page in the Telegram mini-app, `EthereumProvider.init`
resolves with a provider that is not yet connected, and the 45 s timer fires
while `wcProvider.enable()` is still pending. -/
def outerTimeoutPage : Page :=
  Page.outerTimeout { isTelegramMiniApp := true, isTelegramReady := true }
    (Page.connectSettles { isTelegramMiniApp := true, isTelegramReady := true }
      { hasEthereum := false, projectId := some "abc123", providerHasDisconnect := false }
      (Page.start { isTelegramMiniApp := true, isTelegramReady := true }
        { hasEthereum := false, projectId := some "abc123", providerHasDisconnect := false }
        { handle := none, state := initialState, localStorage := [], sessionStorage := [],
          log := [] }
        Component.initial "walletconnect")
      (.provider { connected := false, accounts := none, session := false }))

/-- The page on which the relay connect loses the race after the wallet has
approved: as `outerTimeoutPage`, but `wcProvider.enable()` resolves with the
provider connected and the 45 s timer fires while `provider.getSigner()`, which
has no bound of its own, is still pending. -/
def outerTimeoutSignerPage : Page :=
  Page.outerTimeout { isTelegramMiniApp := true, isTelegramReady := true }
    (Page.connectSettles { isTelegramMiniApp := true, isTelegramReady := true }
      { hasEthereum := false, projectId := some "abc123", providerHasDisconnect := false }
      (Page.connectSettles { isTelegramMiniApp := true, isTelegramReady := true }
        { hasEthereum := false, projectId := some "abc123", providerHasDisconnect := false }
        (Page.start { isTelegramMiniApp := true, isTelegramReady := true }
          { hasEthereum := false, projectId := some "abc123", providerHasDisconnect := false }
          { handle := none, state := initialState, localStorage := [], sessionStorage := [],
            log := [] }
          Component.initial "walletconnect")
        (.provider { connected := false, accounts := none, session := false }))
      (.provider { connected := true, accounts := some ["0xABCDEF1234"], session := true }))

/-! ## `src/services/botApi.js`: the API client -/

/-- The configuration of an axios request. The header `X-Request-Time`, which
the request interceptor sets from the clock, is left out. -/
structure Request where
  method : String
  url : String
  /-- The fields of the JSON body, in order. -/
  data : List (String × String)
  /-- The header `Authorization`. -/
  authorization : Option String
  /-- The property `_retry`. -/
  retry : Bool
  deriving DecidableEq, Repr

/-- What the network answers to one request. -/
inductive NetReply
  | response (status : Nat) (body : Option Body) -- a response; `none`: the body is not JSON
  | failure (message : String)                   -- no response: network error or timeout
  deriving DecidableEq, Repr

/-- What the client does, in order. -/
inductive ApiEvent
  | fetch (url : String)            -- a `fetch` is put on the wire
  | request (config : Request)      -- the axios instance puts a request on the wire
  | refresh (telegramData : String) -- the response interceptor calls `authenticateTelegram`
  | retry (config : Request)        -- the response interceptor re-issues the original request
  deriving DecidableEq, Repr

/-- The error axios rejects with. -/
structure AxiosError where
  config : Request
  /-- The field `response`: status and body. -/
  response : Option (Nat × Option Body)
  message : String
  deriving DecidableEq, Repr

/-- The stored session token, the answers the network will give to the next
requests, and what the client has done so far. -/
structure ApiState where
  /-- The entry `STORAGE_KEYS.SESSION_TOKEN` of `localStorage`. -/
  token : Option String
  script : List NetReply
  events : List ApiEvent
  deriving DecidableEq, Repr

/-- What the API client reads from the Telegram host. -/
structure TelegramEnv where
  /-- `window.Telegram?.WebApp` is truthy. -/
  webApp : Bool
  /-- `window.Telegram.WebApp.initData`. -/
  initData : Option String
  deriving DecidableEq, Repr

/-- The constant `API_CONFIG.baseURL`, by its default. -/
def baseURL : String := "https://bundlealertstream.replit.app"

/-- Something is recorded. -/
def ApiState.note (s : ApiState) (e : ApiEvent) : ApiState :=
  { s with events := s.events ++ [e] }

/-- A request is put on the wire and answered; once the script is used up the
network no longer answers. -/
def ApiState.wire (s : ApiState) (e : ApiEvent) : ApiState × NetReply :=
  match s.script with
  | [] => (s.note e, .failure "Network Error")
  | reply :: rest => ({ s.note e with script := rest }, reply)

/-- A status that axios resolves with, and for which `fetch` sets `ok`. -/
def okStatus (status : Nat) : Bool :=
  200 ≤ status && status < 300

/-- How a call of the axios instance ends. -/
inductive ApiResult
  | ok (status : Nat) (data : Option Body)
  | failed (error : AxiosError)
  | unfinished   -- the steps allowed to the model are used up
  deriving DecidableEq, Repr

/-- How `authenticateTelegram` ends. -/
inductive AuthResult
  | ok (data : Body)
  | failed (e : JsError)
  | unfinished
  deriving DecidableEq, Repr

/-- The connectivity test of `authenticateTelegram` lets this answer to the CORS probe pass. -/
def corsPasses (reply : NetReply) : Bool :=
  match reply with
  | .response status body => !okStatus status || body.isSome
  | .failure _ => false

/-- The connectivity test of `authenticateTelegram` lets this answer to the health check pass. -/
def healthPasses (reply : NetReply) : Bool :=
  match reply with
  | .response status _ => okStatus status
  | .failure _ => false

/-- The request `authenticateTelegram` posts. -/
def authRequest (telegramData : String) : Request :=
  { method := "POST", url := "/api/auth/telegram",
    data := [("telegram_data", telegramData)], authorization := none, retry := false }

/-- The function `authenticateTelegram(telegramData)`, its requests sent through
`client`. The forced call of `WebApp.ready()` at its start touches nothing
modelled here. -/
def authenticateWith (client : ApiState → Request → ApiState × ApiResult) (s : ApiState)
    (telegramData : String) : ApiState × AuthResult :=
  let unauthorized : JsError := mkError ERROR_MESSAGES.UNAUTHORIZED
  -- the connectivity test
  let cors := s.wire (.fetch (baseURL ++ "/api/debug/cors-test"))
  if !corsPasses cors.2 then (cors.1, .failed unauthorized)
  else
    let health := cors.1.wire (.fetch (baseURL ++ "/health"))
    if !healthPasses health.2 then (health.1, .failed unauthorized)
    else
      -- the authentication request
      let posted := client health.1 (authRequest telegramData)
      match posted.2 with
      | .ok _ (some data) =>
        if truthy data.token then
          ({ posted.1 with token := data.token }, .ok data)
        else (posted.1, .failed unauthorized)
      | .ok _ none => (posted.1, .failed unauthorized)
      | .failed _ => (posted.1, .failed unauthorized)
      | .unfinished => (posted.1, .unfinished)

/-- The request interceptor: the stored token, if any, becomes the header
`Authorization`. -/
def requestInterceptor (s : ApiState) (config : Request) : Request :=
  if truthy s.token then { config with authorization := some ("Bearer " ++ s.token.getD "") }
  else config

/-- The error axios builds for a response whose status it rejects. -/
def statusError (config : Request) (status : Nat) (body : Option Body) : AxiosError :=
  { config := config, response := some (status, body),
    message := "Request failed with status code " ++ toString status }

/-- The error axios builds when no response arrives. -/
def networkError (config : Request) (message : String) : AxiosError :=
  { config := config, response := none, message := message }

/-- The configuration the response interceptor re-issues after a refresh that
stored `token`. -/
def retriedRequest (config1 : Request) (token : Option String) : Request :=
  { config1 with retry := true, authorization := some ("Bearer " ++ token.getD "") }

/-- The axios instance `apiClient` with its two interceptors, called on
`config`. The first argument bounds the depth of the calls the response
interceptor makes. -/
def apiClient (tg : TelegramEnv) : Nat → ApiState → Request → ApiState × ApiResult
  | 0, s, _ => (s, .unfinished)
  | fuel + 1, s, config =>
    -- request interceptor
    let config1 : Request := requestInterceptor s config
    let sent := s.wire (.request config1)
    let s1 := sent.1
    -- response interceptor, on an error
    let onRejected : AxiosError → ApiState × ApiResult := fun error =>
      if error.response.map Prod.fst = some 401 && !config1.retry then
        let error1 := { error with config := { config1 with retry := true } }
        let s2 := { s1 with token := none }
        if tg.webApp && truthy tg.initData then
          let refreshed := authenticateWith (apiClient tg fuel)
            (s2.note (.refresh (tg.initData.getD ""))) (tg.initData.getD "")
          match refreshed.2 with
          | .ok _ =>
            if truthy refreshed.1.token then
              let again := retriedRequest config1 refreshed.1.token
              apiClient tg fuel (refreshed.1.note (.retry again)) again
            else (refreshed.1, .failed error1)
          | .failed _ => (refreshed.1, .failed error1)
          | .unfinished => (refreshed.1, .unfinished)
        else (s2, .failed error1)
      else (s1, .failed error)
    match sent.2 with
    | .response status body =>
      if okStatus status then (s1, .ok status body)
      else onRejected (statusError config1 status body)
    | .failure message => onRejected (networkError config1 message)

/-- The function `authenticateTelegram(telegramData)`. -/
def authenticateTelegram (tg : TelegramEnv) (fuel : Nat) (s : ApiState) (telegramData : String) :
    ApiState × AuthResult :=
  authenticateWith (apiClient tg fuel) s telegramData

/-- What a `catch` block of the client may hold. -/
inductive Thrown
  | axios (error : AxiosError)
  | plain (e : JsError)
  deriving DecidableEq, Repr

/-- The function `handleApiError`: always throws. -/
def handleApiError (error : Thrown) : JsError :=
  let orElse : Option String → String → String := fun a b => if truthy a then a.getD "" else b
  match error with
  | .axios e =>
    match e.response with
    | some (status, data) =>
      let dataError : Option String := data.bind Body.error
      if status = 400 then mkError (orElse dataError ERROR_MESSAGES.INVALID_SIGNATURE)
      else if status = 401 then
        if dataError = some "No token provided" then
          mkError "Authentication required - please reconnect your wallet"
        else if dataError = some "Bot token not configured" then
          mkError "Server configuration error - please contact support"
        else mkError ERROR_MESSAGES.UNAUTHORIZED
      else if status = 403 then mkError "Access denied - session may have expired"
      else if status = 429 then mkError ERROR_MESSAGES.RATE_LIMITED
      else if status = 500 then mkError ERROR_MESSAGES.SERVER_ERROR
      else mkError (orElse dataError ERROR_MESSAGES.SERVER_ERROR)
    | none => mkError ERROR_MESSAGES.NETWORK_ERROR
  | .plain e => mkError (orElse e.message ERROR_MESSAGES.SERVER_ERROR)

/-- How `verifyWallet` ends. -/
inductive VerifyResult
  | ok (data : Option Body)
  | failed (e : JsError)
  | unfinished
  deriving DecidableEq, Repr

/-- The request `verifyWallet` posts. -/
def verifyRequest (args : VerifyArgs) : Request :=
  { method := "POST", url := "/api/wallet/verify",
    data := [("wallet_address", args.walletAddress), ("signature", args.signature),
             ("message", args.message)],
    authorization := none, retry := false }

/-- The function `verifyWallet({ walletAddress, signature, message })`. -/
def verifyWallet (tg : TelegramEnv) (fuel : Nat) (s : ApiState) (args : VerifyArgs) :
    ApiState × VerifyResult :=
  let post : ApiState → ApiState × VerifyResult := fun s1 =>
    -- from `const tokenForRequest` on
    if !truthy s1.token then
      (s1, .failed (handleApiError (.plain (mkError "Authentication failed - no token available"))))
    else
      let posted := apiClient tg fuel s1 (verifyRequest args)
      match posted.2 with
      | .ok _ data => (posted.1, .ok data)
      | .failed error => (posted.1, .failed (handleApiError (.axios error)))
      | .unfinished => (posted.1, .unfinished)
  let currentToken := s.token
  if tg.webApp then
    if truthy tg.initData && !truthy currentToken then
      let authenticated := authenticateTelegram tg fuel s (tg.initData.getD "")
      match authenticated.2 with
      | .ok _ => post authenticated.1
      | .failed _ =>
        (authenticated.1,
         .failed (handleApiError (.plain (mkError "Authentication required but failed"))))
      | .unfinished => (authenticated.1, .unfinished)
    else post s
  else if !truthy currentToken then
    (s, .failed (handleApiError (.plain (mkError "No authentication method available"))))
  else post s

/-- The number of refreshes among the events. -/
def refreshCount (events : List ApiEvent) : Nat :=
  events.countP (fun e => match e with | .refresh _ => true | _ => false)

/-- The number of retries among the events. -/
def retryCount (events : List ApiEvent) : Nat :=
  events.countP (fun e => match e with | .retry _ => true | _ => false)

/-- The outcome of a request answered by `reply` when the response interceptor
lets the answer through as it is. -/
def passedOn (config : Request) (reply : NetReply) : ApiResult :=
  match reply with
  | .response status body =>
    if okStatus status then .ok status body else .failed (statusError config status body)
  | .failure message => .failed (networkError config message)


/-- The page as the response interceptor hands it to `authenticateTelegram`
after the request `config`, sent from `s`, was answered `401` and `rest` is what
the network will answer next: the request is on record, the stored token is
removed, the refresh is on record. -/
def refreshStart (tg : TelegramEnv) (s : ApiState) (config : Request) (rest : List NetReply) :
    ApiState :=
  { s.note (.request (requestInterceptor s config)) with
      script := rest, token := none }.note (.refresh (tg.initData.getD ""))

/-- From `s` to `s1` the client has only added events, and every request among
them satisfies `P`. -/
def SentOnly (P : Request → Prop) (s s1 : ApiState) : Prop :=
  ∃ added : List ApiEvent, s1.events = s.events ++ added ∧
    ∀ c, ApiEvent.request c ∈ added → P c

/-- The request `c` is the call `config` (same method, address and body) or an
authentication request. -/
def SameCall (config c : Request) : Prop :=
  (c.method = config.method ∧ c.url = config.url ∧ c.data = config.data) ∨
    c.url = "/api/auth/telegram"

/-! ## `src/utils/formatting.js` -/

/-- JavaScript `s.slice(-n)` for a count `n`: the last `n` units of `s`, all of
`s` when it has fewer; `-0` is `0`, so `n = 0` gives all of `s`. -/
def sliceLast {α : Type} (s : List α) (n : Nat) : List α :=
  if n = 0 then s else s.drop (s.length - n)

/-- The function `formatAddress(address, startLength, endLength)`. A string is
the list of its UTF-16 code units, whatever their type `α`; `dot` is the unit of
the full stop; a missing address is `none`. -/
def formatAddress {α : Type} (dot : α) (address : Option (List α))
    (startLength endLength : Nat) : List α :=
  match address with
  | none => []
  | some a =>
    if a.length = 0 then []
    else if a.length ≤ startLength + endLength then a
    else a.take startLength ++ [dot, dot, dot] ++ sliceLast a endLength

/-! ## Pages and runs used in the evaluations -/

/-- A page with a project id configured and no browser-extension wallet. -/
def relayEnv : PageEnv :=
  { hasEthereum := false, projectId := some "abc123", providerHasDisconnect := false }

/-- A page with a browser-extension wallet. -/
def browserEnv : PageEnv :=
  { hasEthereum := true, projectId := some "abc123", providerHasDisconnect := false }

/-- A freshly loaded page: no handle, the initial wallet state, empty storages. -/
def freshWorld : World :=
  { handle := none, state := initialState, localStorage := [], sessionStorage := [], log := [] }

/-- A page whose local storage holds two entries left by the relay SDK, one of
them under the upper-case key of its deep-link choice, and one entry of the
application. -/
def staleSessionWorld : World :=
  { handle := none, state := initialState,
    localStorage := [("WALLETCONNECT_DEEPLINK_CHOICE", "{}"),
                     ("wc@2:client:0.3//session", "[]"), ("theme", "dark")],
    sessionStorage := [], log := [] }

/-- The relay provider as `EthereumProvider.init` returns it on a fresh page. -/
def freshProvider : WcProvider :=
  { connected := false, accounts := none, session := false }

/-! ## `src/services/walletService.js`: `isConnected`, `handleChainChanged` -/

/-- The method `isConnected()`. -/
def WalletService.isConnected (svc : WalletService) : Bool :=
  svc.provider.isSome && truthy svc.address && svc.signer.isSome

/-- The method `handleChainChanged(chainId)`; `parsed` is the value of
`parseInt(chainId, 16)`. -/
def handleChainChanged (svc : WalletService) (parsed : Int) : WalletService :=
  { svc with chainId := some parsed }

/-! ## `src/App.jsx`: the flow controller `AppContent` -/

/-- The values `currentStep` takes. -/
inductive Step
  | welcome
  | connecting
  | verifying
  | success
  | error
  deriving DecidableEq, Repr

/-- What the flow controller does to its surroundings. -/
inductive AppEffect
  | walletDisconnect                       -- `disconnect()` of the wallet context
  | backendDisconnect (walletAddress : Option String) (disconnectAll : Bool)
                                           -- `disconnectWallet(walletAddress, disconnectAll)` of the API client
  | refreshStatus                          -- `refreshStatus()` of the user-status hook
  | scheduleRefresh (delay : Nat)          -- `setTimeout` of a callback that calls `refreshStatus()`
  | mainButtonShow                         -- `tg.MainButton.show()`
  | toastSuccess (text : String)
  | toastError (text : String)
  | consoleError (text : String)
  deriving DecidableEq, Repr

/-- The `useState` values of `AppContent`, the refresh callbacks that timers
still hold, and what the component has done so far. -/
structure AppState where
  currentStep : Step
  isDisconnecting : Bool
  pendingRefreshes : Nat
  log : List AppEffect
  deriving DecidableEq, Repr

/-- The component as first rendered: `useState('welcome')`, `useState(false)`. -/
def AppState.initial : AppState :=
  { currentStep := .welcome, isDisconnecting := false, pendingRefreshes := 0, log := [] }

/-- Some effects happen, in order. -/
def AppState.emit (app : AppState) (es : List AppEffect) : AppState :=
  { app with log := app.log ++ es }

/-- The callback `handleConnectionStart`. -/
def handleConnectionStart (app : AppState) : AppState :=
  { app with currentStep := .connecting }

/-- The callback `handleVerificationStart`. -/
def handleVerificationStart (app : AppState) : AppState :=
  { app with currentStep := .verifying }

/-- The callback `handleSuccess`; `hasTg`: the Telegram object `tg` is truthy. -/
def handleSuccess (hasTg : Bool) (app : AppState) : AppState :=
  let app1 := { app with currentStep := .success }
  let app2 := if hasTg then app1.emit [.mainButtonShow] else app1
  { app2.emit [.scheduleRefresh 1000] with pendingRefreshes := app2.pendingRefreshes + 1 }

/-- The callback `handleError(error)`. -/
def handleError (app : AppState) (error : String) : AppState :=
  { app with currentStep := .error }.emit [.toastError error]

/-- The callback `handleRetry`. -/
def handleRetry (app : AppState) : AppState :=
  { app with currentStep := .welcome }

/-- The `onClick` of the re-verify button: `setCurrentStep('connecting')`. -/
def reverifyClicked (app : AppState) : AppState :=
  { app with currentStep := .connecting }

/-- A timer set by `handleSuccess` or `handleDisconnectWallet` fires: its
callback calls `refreshStatus()`. -/
def refreshTimerFires (app : AppState) : AppState :=
  if app.pendingRefreshes = 0 then app
  else { app.emit [.refreshStatus] with pendingRefreshes := app.pendingRefreshes - 1 }

/-- The function `handleDisconnectWallet`, the disconnect action of the welcome
screen. `walletAddress` is `userStatus.wallets?.[0]?.address`; `backend` says
how the call `disconnectWallet(walletAddress, false)` settles. -/
def handleDisconnectWallet (app : AppState) (walletAddress : Option String)
    (backend : Settled) : AppState :=
  let app1 := { app with isDisconnecting := true }.emit [.backendDisconnect walletAddress false]
  let app2 :=
    match backend with
    | .resolved =>
      { app1.emit [.toastSuccess "üîì Wallet disconnected successfully!", .scheduleRefresh 1000] with
          pendingRefreshes := app1.pendingRefreshes + 1 }
    | .rejected e =>
      app1.emit [.consoleError "Error disconnecting wallet:",
                 .toastError ("Failed to disconnect wallet: " ++ e.messageText)]
  { app2 with isDisconnecting := false }

/-! ### What `AppContent` renders for the current step -/

/-- The props `AppContent` passes to `VerificationStatus`; a callback prop is
recorded by whether it is passed. -/
structure VerificationStatusProps where
  step : Step
  onSuccess : Bool
  onError : Bool
  onRetry : Bool
  onReturnToBot : Bool
  errorMessage : Option String
  deriving DecidableEq, Repr

/-- The `VerificationStatus` element in the render of `AppContent`, if the
current step has one. -/
def renderVerificationStatus (app : AppState) : Option VerificationStatusProps :=
  match app.currentStep with
  | .welcome => none
  | .connecting =>
    some { step := .connecting, onSuccess := true, onError := true, onRetry := false,
           onReturnToBot := false, errorMessage := none }
  | .verifying =>
    some { step := .verifying, onSuccess := true, onError := true, onRetry := false,
           onReturnToBot := false, errorMessage := none }
  | .success =>
    some { step := .success, onSuccess := true, onError := false, onRetry := false,
           onReturnToBot := true, errorMessage := none }
  | .error =>
    some { step := .error, onSuccess := false, onError := false, onRetry := true,
           onReturnToBot := false, errorMessage := none }

/-! ## `src/components/Verification/VerificationStatus.jsx`: the error step -/

/-- The constant `isConnectionError` of the error step. -/
def isConnectionError (errorMessage : Option String) : Bool :=
  match errorMessage with
  | some m => includes m "connection" || includes m "lost" || includes m "disconnect"
  | none => false

/-- The buttons the error step offers. -/
inductive ErrorActions
  | restoreOrStartFresh  -- `Try to Restore Connection` and `Start Fresh Connection`
  | tryAgain             -- `Try Again`
  deriving DecidableEq, Repr

/-- The choice the error step of `VerificationStatus` shows. -/
def errorActions (props : VerificationStatusProps) : ErrorActions :=
  if isConnectionError props.errorMessage then .restoreOrStartFresh else .tryAgain

/-- The text the error step of `VerificationStatus` shows. -/
def errorText (props : VerificationStatusProps) : String :=
  if truthy props.errorMessage then props.errorMessage.getD ""
  else "We couldn't verify your wallet. This might be due to a connection issue or cancelled transaction."

/-! ## `src/utils/validation.js` -/

/-- A JavaScript value as the validators see it. -/
inductive JsValue
  | str (s : String)       -- a string
  | other (truthy : Bool)  -- a value of another type, truthy or not
  deriving DecidableEq, Repr

/-- JavaScript truthiness of a value. -/
def JsValue.truthy : JsValue → Bool
  | .str s => s != ""
  | .other t => t

/-- The character class `[0-9a-fA-F]`. -/
def hexClass (c : Char) : Bool :=
  ('0' ≤ c && c ≤ '9') || ('a' ≤ c && c ≤ 'f') || ('A' ≤ c && c ≤ 'F')

/-- The match of `[0-9a-fA-F]{n}$` at the head of `text`. -/
def matchHex : Nat → List Char → Bool
  | 0, text => text.isEmpty
  | _ + 1, [] => false
  | n + 1, c :: rest => hexClass c && matchHex n rest

/-- The function `isValidSignature`. The pattern has neither the `m` nor the
`g` flag: `^` and `$` are the two ends of the text and the test keeps no state. -/
def isValidSignature : JsValue → Bool
  | .other _ => false
  | .str signature =>
    if signature = "" then false
    else
      let cleanSignature : List Char :=
        if "0x".data.isPrefixOf signature.data then signature.data.drop 2 else signature.data
      matchHex 130 cleanSignature

/-- The function `isValidAddress`; `isAddress` is `ethers.isAddress`, `none`
where it throws. -/
def isValidAddress (isAddress : JsValue → Option Bool) (address : JsValue) : Bool :=
  (isAddress address).getD false

/-- The value `validateWalletInput` returns. -/
structure WalletInputCheck where
  isValid : Bool
  errors : List String
  deriving DecidableEq, Repr

/-- The function `validateWalletInput(address, signature)`. -/
def validateWalletInput (isAddress : JsValue → Option Bool) (address signature : JsValue) :
    WalletInputCheck :=
  let errors1 : List String :=
    if !address.truthy then ["Wallet address is required"]
    else if !isValidAddress isAddress address then ["Invalid wallet address format"]
    else []
  let errors : List String :=
    if !signature.truthy then errors1 ++ ["Signature is required"]
    else if !isValidSignature signature then errors1 ++ ["Invalid signature format"]
    else errors1
  { isValid := errors.length = 0, errors := errors }

/-- The characters `String.prototype.trim` removes: white space and line
terminators. -/
def isTrimmed (c : Char) : Bool :=
  c.toNat = 0x09 || c.toNat = 0x0A || c.toNat = 0x0B || c.toNat = 0x0C || c.toNat = 0x0D ||
  c.toNat = 0x20 || c.toNat = 0xA0 || c.toNat = 0x1680 ||
  (0x2000 ≤ c.toNat && c.toNat ≤ 0x200A) ||
  c.toNat = 0x2028 || c.toNat = 0x2029 || c.toNat = 0x202F || c.toNat = 0x205F ||
  c.toNat = 0x3000 || c.toNat = 0xFEFF

/-- JavaScript `text.trim()`. -/
def trim (text : List Char) : List Char :=
  (text.dropWhile isTrimmed).rdropWhile isTrimmed

/-- JavaScript `text.replace(/[<>]/g, '')`. -/
def removeAngles (text : List Char) : List Char :=
  text.filter (fun c => !(c = '<' || c = '>'))

/-- The function `sanitizeInput`. -/
def sanitizeInput : JsValue → String
  | .other _ => ""
  | .str input => String.mk (removeAngles (trim input.data))

/-- The constants `APP_CONFIG` and `SIGNATURE_CONFIG` of `src/utils/constants.js`. -/
def APP_CONFIG.domain (VITE_APP_DOMAIN : Option String) : String :=
  if truthy VITE_APP_DOMAIN then VITE_APP_DOMAIN.getD "" else "bundlealert-wallet.netlify.app"

/-- The constant `SIGNATURE_CONFIG.message`. -/
def SIGNATURE_CONFIG.message : String :=
  "Sign this message to verify your wallet ownership for BundleAlert subscription verification."

/-- The constant `SIGNATURE_CONFIG.domain`. -/
def SIGNATURE_CONFIG.domain (VITE_APP_DOMAIN : Option String) : String :=
  APP_CONFIG.domain VITE_APP_DOMAIN

/-- The function `validateSignatureMessage(message)` on a string, as a condition. -/
def validateSignatureMessage (message : String) : Bool :=
  message != "" && includes message SIGNATURE_CONFIG.message

/-! ## `src/services/walletService.js`: `generateVerificationMessage` -/

/-- The value `generateVerificationMessage` returns. -/
structure VerificationMessage where
  message : String
  timestamp : Nat
  deriving DecidableEq, Repr

/-- The method `generateVerificationMessage()`; `now` is `Date.now()`. -/
def generateVerificationMessage (VITE_APP_DOMAIN : Option String) (now : Nat) :
    VerificationMessage :=
  let timestamp := now / 1000
  { message := SIGNATURE_CONFIG.message ++ "\n\nTimestamp: " ++ toString timestamp ++
      "\nDomain: " ++ SIGNATURE_CONFIG.domain VITE_APP_DOMAIN,
    timestamp := timestamp }

/-! ### The wording of the signature format -/

/-- The hexadecimal digits, upper and lower case. -/
def hexDigits : List Char := "0123456789abcdefABCDEF".data

/-- A text after the removal of one leading `0x`, when present. -/
def withoutLeading0x : List Char → List Char
  | '0' :: 'x' :: rest => rest
  | text => text

/-! ## `src/services/botApi.js`: `handleApiError` as called, `retryRequest` -/

/-- A call `handleApiError(error)` as its caller sees it: the function has no
`return`, and every path through it ends in its last statement, the `throw`. -/
def handleApiErrorCall (error : Thrown) : Outcome Unit :=
  .threw (handleApiError error)

/-- The value of `error.response?.status`. -/
def Thrown.status : Thrown → Option Nat
  | .axios e => e.response.map Prod.fst
  | .plain _ => none

/-- The condition `error.response?.status >= 400 && error.response?.status < 500`. -/
def clientError (error : Thrown) : Bool :=
  match error.status with
  | some status => 400 ≤ status && status < 500
  | none => false

/-- How a call of `retryRequest` ends. -/
inductive RetryResult (α : Type)
  | returned (value : α)
  | threw (lastError : Thrown)
  deriving DecidableEq, Repr

/-- A finished call of `retryRequest`: its result, the number of calls of
`requestFn` it made, and the waits between them, each without its random part. -/
structure RetryRun (α : Type) where
  result : RetryResult α
  calls : Nat
  delays : List Nat
  deriving DecidableEq, Repr

/-- The constant `API_CONFIG.retryDelay`. -/
def retryDelay : Nat := 1000

/-- The loop of `retryRequest` from the iteration `i` on, with `left` iterations
to follow it: `left` is `maxRetries - i`. The call of `requestFn` made in the
iteration `i` settles as `requestFn i` says. -/
def retryLoop {α : Type} (requestFn : Nat → Except Thrown α) :
    (left i : Nat) → List Nat → RetryRun α
  | left, i, delays =>
    match requestFn i with
    | .ok value => { result := .returned value, calls := i + 1, delays := delays }
    | .error error =>
      match left with
      | 0 => { result := .threw error, calls := i + 1, delays := delays }
      | left1 + 1 =>
        if clientError error then { result := .threw error, calls := i + 1, delays := delays }
        else retryLoop requestFn left1 (i + 1) (delays ++ [retryDelay * 2 ^ i])

/-- The function `retryRequest(requestFn, maxRetries)`. -/
def retryRequest {α : Type} (requestFn : Nat → Except Thrown α) (maxRetries : Nat) : RetryRun α :=
  retryLoop requestFn maxRetries 0 []

/-! ## `src/contexts/TelegramContext.jsx`: the readiness poll -/

/-- The counter of the poll, the state `isReady` of the provider, and what the
poll has done so far. -/
structure Readiness where
  /-- The variable `attempts`: the checks made. -/
  attempts : Nat
  isReady : Bool
  /-- The calls `setIsReady(true)` made. -/
  setIsReadyCalls : Nat
  /-- The calls `setTimeout(checkReadiness, 100)` made. -/
  scheduled : Nat
  /-- A timer holding `checkReadiness` is set and has not fired. -/
  timerSet : Bool
  deriving DecidableEq, Repr

/-- The provider as first rendered, before its effect runs. -/
def Readiness.initial : Readiness :=
  { attempts := 0, isReady := false, setIsReadyCalls := 0, scheduled := 0, timerSet := false }

/-- The constant `maxAttempts`. -/
def maxAttempts : Nat := 50

/-- The function `checkReadiness` together with the checks its timers lead to;
`hostReady k` is the value of `telegram.isReady` at the check number `k`. -/
def checkReadiness (hostReady : Nat → Bool) (st : Readiness) : Readiness :=
  let st1 := { st with attempts := st.attempts + 1, timerSet := false }
  if hostReady st1.attempts then
    { st1 with isReady := true, setIsReadyCalls := st1.setIsReadyCalls + 1 }
  else if st1.attempts ≥ maxAttempts then
    { st1 with isReady := true, setIsReadyCalls := st1.setIsReadyCalls + 1 }
  else
    checkReadiness hostReady { st1 with scheduled := st1.scheduled + 1, timerSet := true }
termination_by maxAttempts - st.attempts
decreasing_by
  simp only [maxAttempts] at *
  omega

/-- The effect of `TelegramProvider`, as far as readiness goes; `webApp`:
`window.Telegram?.WebApp` is truthy. -/
def telegramEffect (webApp : Bool) (hostReady : Nat → Bool) : Readiness :=
  if webApp then checkReadiness hostReady Readiness.initial
  else { Readiness.initial with isReady := true, setIsReadyCalls := 1 }

/-! ## `src/App.jsx` with the `WalletConnect` component it renders -/

/-- The flow controller together with the page of the `WalletConnect`
component, whose callbacks it supplies. -/
structure Screen where
  app : AppState
  page : Page
  deriving DecidableEq, Repr

/-- The screen as first rendered on a freshly loaded page. -/
def Screen.initial : Screen :=
  { app := AppState.initial,
    page := { world := freshWorld, component := Component.initial, connectCall := none,
              handler := .finished } }

/-- The props `onConnectionStart`, `onVerificationStart`, `onSuccess` and
`onError` that `AppContent` passes to `WalletConnect`. -/
def appCallback (hasTg : Bool) (app : AppState) : FlowEffect → AppState
  | .onConnectionStart => handleConnectionStart app
  | .onVerificationStart => handleVerificationStart app
  | .onSuccess _ => handleSuccess hasTg app
  | .onError errorMessage => handleError app errorMessage
  | _ => app

/-- The user action: a wallet button of the welcome screen is clicked, which
calls `handleConnectWallet(wallet.id)`; the callbacks the handler calls reach
the flow controller. -/
def Screen.connectClicked (cenv : ComponentEnv) (env : PageEnv) (hasTg : Bool) (s : Screen)
    (walletType : String) : Screen :=
  let p := Page.start cenv env s.page.world s.page.component walletType
  { app := (p.component.log.drop s.page.component.log.length).foldl (appCallback hasTg) s.app,
    page := p }

/-- The user action: the re-verify button of the welcome screen is clicked. -/
def Screen.reverifyClicked (s : Screen) : Screen :=
  { s with app := BundleAlert.reverifyClicked s.app }

/-! ## Runs used in the evaluations -/

/-- The wallet context after a browser-extension connect that succeeded. -/
def connectedWorld : World :=
  (connectWalletRun browserEnv freshWorld "metamask"
    [.accounts ["0xABCDEF1234"], .done, .address "0xABCDEF1234", .network 1,
     .balance "1.0"]).1

/-- A Telegram host that supplies init data. -/
def telegramHost : TelegramEnv :=
  { webApp := true, initData := some "query_id=1" }

/-- An answer `401` with a JSON body. -/
def unauthorizedReply : NetReply :=
  .response 401 (some { token := none, error := some "Invalid token", payload := "" })

/-- An answer `200` with a JSON body that carries no token. -/
def probeReply : NetReply :=
  .response 200 (some { token := none, error := none, payload := "" })

/-- What a backend answers that lets the two connectivity probes pass and
answers `401` to everything else, the authentication request included:
`rounds` times the answer to a request and to the two probes that follow it,
then the answer to one more request. -/
def refusingServer : Nat → List NetReply
  | 0 => [unauthorizedReply]
  | rounds + 1 => unauthorizedReply :: probeReply :: probeReply :: refusingServer rounds

/-- The number of authentication requests among the events. -/
def authRequestCount (events : List ApiEvent) : Nat :=
  events.countP (fun e =>
    match e with
    | .request config => config.url == "/api/auth/telegram"
    | _ => false)

/-- A request for the user status. -/
def statusRequest : Request :=
  { method := "GET", url := "/api/user/comprehensive-status", data := [], authorization := none,
    retry := false }

/-- A request function that fails twice without a response and then succeeds. -/
def flakyRequest : Nat → Except Thrown String
  | 0 => .error (.plain (mkError "Network Error"))
  | 1 => .error (.plain (mkError "Network Error"))
  | _ => .ok "done"

/-! # Theorems -/

/-! ## Properties of `WalletService.connect` -/

/-- A call that is left suspended has set the guard flag; one that is not left
suspended by `connect` leaves the flag as it found it when it was clear. -/
theorem connect_progress (env : ServiceEnv) (svc : WalletService) (stored : Option String)
    (providerType : String) (h : svc.isConnecting = false) :
    (∃ a, (connect env svc stored providerType).progress = .awaiting a ∧
        (connect env svc stored providerType).svc.isConnecting = true) ∨
    ((∀ a, (connect env svc stored providerType).progress ≠ .awaiting a) ∧
        (connect env svc stored providerType).svc.isConnecting = false) := by
  unfold connect connectMetaMask connectWalletConnect
  simp only [h]
  by_cases hm : providerType = "metamask"
  · cases hE : env.ethereumIsMetaMask <;> simp [hm, hE, h]
  · by_cases hw : providerType = "walletconnect" <;> simp [hm, hw, h]

/-- A running attempt either stays suspended, the guard flag untouched, or ends
and clears the flag. -/
theorem resume_progress (env : ServiceEnv) (svc : WalletService) (stored : Option String)
    (a : Await) (reply : Reply) (r : Ran) (h : resume env svc stored a reply = some r) :
    (∃ a1, r.progress = .awaiting a1 ∧ r.svc.isConnecting = svc.isConnecting) ∨
    ((∀ a1, r.progress ≠ .awaiting a1) ∧ r.svc.isConnecting = false) := by
  cases a <;> cases reply <;> simp only [resume] at h <;>
    (try split at h) <;> cases h <;>
    simp [connectFailed, connectDone, startSwitch] <;> split <;> simp

theorem Sys.step_guarded (env : ServiceEnv) (s : Sys) (ev : Event) (h : s.Guarded) :
    (s.step env ev).Guarded := by
  obtain ⟨hlen, hflag⟩ := h
  cases ev with
  | connect providerType =>
    simp only [Sys.step]
    cases hc : s.svc.isConnecting with
    | true =>
      have hr : connect env s.svc s.stored providerType =
          { svc := s.svc, stored := s.stored, ran := [],
            progress := .threw (mkError "Connection already in progress") } := by
        simp [connect, hc]
      rw [hr]
      exact ⟨hlen, hflag⟩
    | false =>
      have hnil : s.inflight = [] := by
        by_contra hne
        have := hflag.2 hne
        simp [hc] at this
      rcases connect_progress env s.svc s.stored providerType hc with ⟨a, ha, hi⟩ | ⟨hna, hi⟩
      · rw [ha]
        simp [Sys.Guarded, hnil, hi]
      · cases hp : (connect env s.svc s.stored providerType).progress with
        | awaiting a => exact absurd hp (hna a)
        | threw e => simp [Sys.Guarded, hnil, hi]
        | returned r => simp [Sys.Guarded, hnil, hi]
  | settle i reply =>
    simp only [Sys.step]
    cases hg : s.inflight.get? i with
    | none => exact ⟨hlen, hflag⟩
    | some a =>
      simp only []
      cases hres : resume env s.svc s.stored a reply with
      | none => exact ⟨hlen, hflag⟩
      | some r =>
        simp only []
        have hne : s.inflight ≠ [] := by
          intro h0
          simp [h0] at hg
        have hi0 : i = 0 := by
          have hlt : i < s.inflight.length := by
            rcases Nat.lt_or_ge i s.inflight.length with h1 | h1
            · exact h1
            · rw [List.get?_eq_none.mpr h1] at hg
              cases hg
          omega
        have hone : ∃ x, s.inflight = [x] := by
          match hs : s.inflight with
          | [] => exact absurd hs hne
          | [x] => exact ⟨x, rfl⟩
          | _ :: _ :: _ => rw [hs] at hlen; simp at hlen
        obtain ⟨x, hx⟩ := hone
        rcases resume_progress env s.svc s.stored a reply r hres with ⟨a1, ha1, hi⟩ | ⟨hna, hi⟩
        · rw [ha1]
          simp only [Sys.Guarded, hx, hi0, hi]
          have := hflag.2 hne
          simp [this]
        · cases hp : r.progress with
          | awaiting a1 => exact absurd hp (hna a1)
          | threw e => simp [Sys.Guarded, hx, hi0, hi]
          | returned r1 => simp [Sys.Guarded, hx, hi0, hi]

theorem Sys.foldl_guarded (env : ServiceEnv) (evs : List Event) :
    ∀ s : Sys, s.Guarded → (evs.foldl (Sys.step env) s).Guarded := by
  induction evs with
  | nil => intro s h; exact h
  | cons ev rest ih => intro s h; exact ih _ (Sys.step_guarded env s ev h)

theorem Sys.run_guarded (env : ServiceEnv) (evs : List Event) : (Sys.run env evs).Guarded :=
  Sys.foldl_guarded env evs Sys.init (by simp [Sys.Guarded, Sys.init, WalletService.new])

/-- C1. For every provider type and every service state with `isConnecting`
set, `connect(providerType)` throws `Connection already in progress`, runs
neither `connectMetaMask` nor `connectWalletConnect`, and leaves the service
(provider, signer, address, chainId, isConnecting) as it was; and over every
sequence of connect calls and settlements of awaited calls, at most one
connection attempt is in the connecting state. -/
theorem connect_reentrancy_guard (env : ServiceEnv) :
    (∀ (svc : WalletService) (stored : Option String) (providerType : String),
      svc.isConnecting = true →
        connect env svc stored providerType =
          { svc := svc, stored := stored, ran := [],
            progress := .threw (mkError "Connection already in progress") }) ∧
    (∀ evs : List Event, (Sys.run env evs).inflight.length ≤ 1) := by
  constructor
  · intro svc stored providerType h
    simp [connect, h]
  · intro evs
    exact (Sys.run_guarded env evs).1

theorem connect_reentrancy_guard_witness :
    ({ provider := none, signer := none, address := none, chainId := none,
       isConnecting := true } : WalletService).isConnecting = true ∧
    connect { ethereumIsMetaMask := true, projectId := "p" }
        { provider := none, signer := none, address := none, chainId := none, isConnecting := true }
        none "walletconnect" =
      { svc := { provider := none, signer := none, address := none, chainId := none,
                 isConnecting := true },
        stored := none, ran := [],
        progress := .threw (mkError "Connection already in progress") } :=
  ⟨rfl, (connect_reentrancy_guard { ethereumIsMetaMask := true, projectId := "p" }).1
    { provider := none, signer := none, address := none, chainId := none, isConnecting := true }
    none "walletconnect" rfl⟩

/-- A second `connect` while the first is awaiting the SDK is rejected and starts
nothing: one attempt stays in flight. -/
theorem connect_twice_example :
    Sys.run { ethereumIsMetaMask := true, projectId := "abc123" }
        [.connect "walletconnect", .connect "metamask"] =
      { svc := { provider := none, signer := none, address := none, chainId := none,
                 isConnecting := true },
        stored := none, inflight := [.wcInit] } := by
  decide

/-- A relay connect that runs to its end leaves nothing in flight and the guard
flag cleared. -/
theorem connect_completes_example :
    Sys.run { ethereumIsMetaMask := false, projectId := "abc123" }
        [.connect "walletconnect", .settle 0 .wcReady,
         .settle 0 (.wcConnected ["0xABCDEF1234"] 1), .settle 0 (.signer 7)] =
      { svc := { provider := some .walletConnect, signer := some 7,
                 address := some "0xABCDEF1234", chainId := some 1, isConnecting := false },
        stored := some "0xABCDEF1234", inflight := [] } := by
  decide

/-! ## Properties of the wallet context -/

/-- `includes` is the infix relation on the characters. -/
theorem includes_iff (haystack needle : String) :
    includes haystack needle = true ↔ needle.data <:+: haystack.data := by
  unfold includes
  rw [List.any_eq_true]
  constructor
  · rintro ⟨t, ht, hp⟩
    rw [List.mem_tails] at ht
    rw [List.isPrefixOf_iff_prefix] at hp
    exact List.infix_iff_prefix_suffix.mpr ⟨t, hp, ht⟩
  · intro h
    obtain ⟨t, hp, ht⟩ := List.infix_iff_prefix_suffix.mp h
    exact ⟨t, (List.mem_tails t _).mpr ht, List.isPrefixOf_iff_prefix.mpr hp⟩

/-- Removing the marked keys one by one keeps exactly the entries whose key is
not a marked key of the list walked. -/
theorem Storage.foldl_removeItem (marked : String → Bool) (ks : List String) :
    ∀ st : Storage,
      ks.foldl (fun st key => if marked key then Storage.removeItem st key else st) st =
        st.filter (fun p => !(marked p.1 && decide (p.1 ∈ ks))) := by
  induction ks with
  | nil => intro st; simp
  | cons k rest ih =>
    intro st
    rw [List.foldl_cons, ih]
    by_cases hk : marked k = true
    · simp only [hk, if_true, Storage.removeItem, List.filter_filter]
      apply List.filter_congr
      intro p _
      by_cases hpk : p.1 = k
      · simp [hpk, hk]
      · simp [hpk, Ne.symm hpk]
    · simp only [hk, Bool.false_eq_true, if_false]
      apply List.filter_congr
      intro p _
      by_cases hpk : p.1 = k
      · simp [hpk, hk]
      · simp [hpk]

/-- The purge loop keeps exactly the entries whose key is not marked. -/
theorem Storage.purge_eq_filter (marked : String → Bool) (s : Storage) :
    Storage.purge marked s = s.filter (fun p => !marked p.1) := by
  unfold Storage.purge
  rw [Storage.foldl_removeItem]
  apply List.filter_congr
  intro p hp
  have : p.1 ∈ Storage.keys s := List.mem_map_of_mem Prod.fst hp
  simp [this]

/-- C2, evaluated. A page whose wallet state has `isConnecting = true` (an
earlier `connectWallet` has not settled) calls `connectWallet('walletconnect')`
with a project id configured: the call does not fail; it purges the storage,
calls `EthereumProvider.init` and is left awaiting it. -/
theorem connectWallet_while_connecting_starts_init :
    connectWallet { hasEthereum := false, projectId := some "abc123", providerHasDisconnect := false }
        { handle := none, state := { initialState with isConnecting := true },
          localStorage := [], sessionStorage := [], log := [] }
        "walletconnect" =
      ({ handle := none, state := { initialState with isConnecting := true },
         localStorage := [], sessionStorage := [], log := [.sdkInit] },
       .awaiting .init) := by
  decide

/-- C3. For every page and every way the two transport calls settle,
`disconnect()` returns without throwing, leaves the reducer state equal to
`initialState` (provider, account, chainId, error, balance, signature null;
isConnected and isConnecting false) and leaves the global handle cleared. -/
theorem disconnect_always_disconnected (w : World) (wcDisconnect providerDisconnect : Settled) :
    (disconnect w wcDisconnect providerDisconnect).2 = .returned () ∧
    (disconnect w wcDisconnect providerDisconnect).1.state = initialState ∧
    initialState =
      { provider := none, account := none, chainId := none, isConnected := false,
        isConnecting := false, error := none, balance := none, signature := none } ∧
    (disconnect w wcDisconnect providerDisconnect).1.handle = none := by
  unfold disconnect
  cases hh : w.handle <;> cases hp : w.state.provider <;> cases wcDisconnect <;>
    cases providerDisconnect <;>
    simp [hh, World.dispatch, World.emit, World.deleteHandle, walletReducer, initialState] <;>
    split <;> simp [hh]

/-- C4. For every content of the two storages, `forceCleanup()` returns (`true`)
without throwing; afterwards neither storage holds a key containing
`walletconnect` or `wc@2`, every entry whose key contains neither marker is
still present with its value, and is still what `getItem` returns for its key,
the handle is cleared and the wallet state is `initialState`. -/
theorem forceCleanup_purges (w : World) :
    (forceCleanup w).2 = .returned true ∧
    (∀ key ∈ (forceCleanup w).1.localStorage.keys ++ (forceCleanup w).1.sessionStorage.keys,
      includes key "walletconnect" = false ∧ includes key "wc@2" = false) ∧
    (∀ key value, includes key "walletconnect" = false → includes key "wc@2" = false →
      ((key, value) ∈ w.localStorage → (key, value) ∈ (forceCleanup w).1.localStorage) ∧
      ((key, value) ∈ w.sessionStorage → (key, value) ∈ (forceCleanup w).1.sessionStorage) ∧
      (forceCleanup w).1.localStorage.getItem key = w.localStorage.getItem key ∧
      (forceCleanup w).1.sessionStorage.getItem key = w.sessionStorage.getItem key) ∧
    (forceCleanup w).1.handle = none ∧
    (forceCleanup w).1.state = initialState := by
  have hkeys : ∀ (s : Storage), ∀ key ∈ (Storage.purge forceCleanupMarked s).keys,
      includes key "walletconnect" = false ∧ includes key "wc@2" = false := by
    intro s key hk
    rw [Storage.purge_eq_filter, Storage.keys, List.mem_map] at hk
    obtain ⟨p, hp, rfl⟩ := hk
    have := (List.mem_filter.mp hp).2
    simpa [forceCleanupMarked] using this
  have hmem : ∀ (s : Storage) key value, includes key "walletconnect" = false →
      includes key "wc@2" = false → (key, value) ∈ s →
      (key, value) ∈ Storage.purge forceCleanupMarked s := by
    intro s key value h1 h2 hin
    rw [Storage.purge_eq_filter]
    exact List.mem_filter.mpr ⟨hin, by simp [forceCleanupMarked, h1, h2]⟩
  have hget : ∀ (s : Storage) key, includes key "walletconnect" = false →
      includes key "wc@2" = false →
      (Storage.purge forceCleanupMarked s).getItem key = s.getItem key := by
    intro s key h1 h2
    rw [Storage.purge_eq_filter]
    unfold Storage.getItem
    congr 1
    induction s with
    | nil => rfl
    | cons p rest ih =>
      by_cases hpk : p.1 = key
      · subst hpk
        have hm : forceCleanupMarked p.1 = false := by simp [forceCleanupMarked, h1, h2]
        simp [List.filter_cons, hm, List.find?_cons]
      · by_cases hm : forceCleanupMarked p.1 = true
        · simp [List.filter_cons, hm, List.find?_cons, hpk, ih]
        · simp [List.filter_cons, hm, List.find?_cons, hpk, ih]
  refine ⟨rfl, ?_, ?_, rfl, rfl⟩
  · intro key hk
    rcases List.mem_append.mp hk with h | h
    · exact hkeys _ key h
    · exact hkeys _ key h
  · intro key value h1 h2
    exact ⟨hmem _ key value h1 h2, hmem _ key value h1 h2, hget _ key h1 h2, hget _ key h1 h2⟩

theorem forceCleanup_purges_witness :
    includes "theme" "walletconnect" = false ∧ includes "theme" "wc@2" = false ∧
    ("theme", "dark") ∈ [("wc@2:client:0.3//session", "x"), ("theme", "dark")] ∧
    ("theme", "dark") ∈
      (forceCleanup { handle := none, state := initialState,
                      localStorage := [("wc@2:client:0.3//session", "x"), ("theme", "dark")],
                      sessionStorage := [], log := [] }).1.localStorage :=
  ⟨(by decide), (by decide), (by decide),
    ((forceCleanup_purges
        { handle := none, state := initialState,
          localStorage := [("wc@2:client:0.3//session", "x"), ("theme", "dark")],
          sessionStorage := [], log := [] }).2.2.1 "theme" "dark" (by decide) (by decide)).1
      (by decide)⟩

/-- The `catch` block of `signMessage` on the error `Wallet not connected`. -/
theorem signMessageCatch_not_connected (w : World) (connectedAtCatch : Bool) :
    signMessageCatch w connectedAtCatch (mkError "Wallet not connected") =
      ({ w with state := { w.state with error := some "Wallet not connected",
                                        isConnecting := false },
                log := w.log ++ [.toastError "Wallet not connected"] },
       .threw (mkError "Wallet not connected")) := by
  have h1 : (mkError "Wallet not connected").msgIncludes "connection" = false := by decide
  have h2 : (mkError "Wallet not connected").msgIncludes "disconnect" = false := by decide
  have h3 : (mkError "Wallet not connected").msgIncludes "connect() before request" = false := by
    decide
  have h4 : (mkError "Wallet not connected").code = none := rfl
  have h5 : getWalletErrorMessage (mkError "Wallet not connected") = "Wallet not connected" := by
    decide
  simp [signMessageCatch, h1, h2, h3, h4, h5, World.dispatch, World.emit, walletReducer]

/-- C5. For every message, if neither the options argument nor the wallet state
supplies a provider, or neither supplies an account (so that the two together
do not supply both), `signMessage` throws `Wallet not connected`; the page is
left as it was except that the wallet state has `error` set to
`Wallet not connected` and `isConnecting` to false, and the only entry added to
the requests issued is the error toast: no `eth_accounts`, no `personal_sign`,
no `getSigner`. -/
theorem signMessage_not_connected (w : World) (message : String) (options : SignOptions)
    (replies : SignReplies)
    (h : (options.provider = none ∧ w.state.provider = none) ∨
         (truthy options.account = false ∧ truthy w.state.account = false)) :
    signMessage w message options replies =
      ({ w with state := { w.state with error := some "Wallet not connected",
                                        isConnecting := false },
                log := w.log ++ [.toastError "Wallet not connected"] },
       .threw (mkError "Wallet not connected")) := by
  have hguard : (options.provider <|> w.state.provider) = none ∨
      truthy (strOr options.account w.state.account) = false := by
    rcases h with ⟨ho, hs⟩ | ⟨ho, hs⟩
    · left; rw [ho, hs]; rfl
    · right; simp [strOr, ho, hs]
  have hcatch : signMessage w message options replies =
      signMessageCatch w replies.connectedAtCatch (mkError "Wallet not connected") := by
    unfold signMessage
    dsimp only
    rcases hguard with hp | ha
    · rw [hp]
    · rw [ha]
      cases (options.provider <|> w.state.provider) <;> rfl
  rw [hcatch]
  exact signMessageCatch_not_connected w _

theorem signMessage_not_connected_witness :
    ((({ provider := none, account := some "0xAbC" } : SignOptions).provider = none ∧
        initialState.provider = none) ∨
      (truthy ({ provider := none, account := some "0xAbC" } : SignOptions).account = false ∧
        truthy initialState.account = false)) ∧
    signMessage { handle := none, state := initialState, localStorage := [],
                  sessionStorage := [], log := [] }
        "hello" { provider := none, account := some "0xAbC" }
        { ethAccounts := .ok none, personalSign := .ok "0x1", getSigner := .resolved,
          signerSignMessage := .ok "0x2", connectedAtCatch := true } =
      ({ handle := none,
         state := { initialState with error := some "Wallet not connected", isConnecting := false },
         localStorage := [], sessionStorage := [],
         log := [.toastError "Wallet not connected"] },
       .threw (mkError "Wallet not connected")) :=
  ⟨Or.inl ⟨rfl, rfl⟩,
    signMessage_not_connected
      { handle := none, state := initialState, localStorage := [], sessionStorage := [], log := [] }
      "hello" { provider := none, account := some "0xAbC" }
      { ethAccounts := .ok none, personalSign := .ok "0x1", getSigner := .resolved,
        signerSignMessage := .ok "0x2", connectedAtCatch := true }
      (Or.inl ⟨rfl, rfl⟩)⟩

/-- In a wallet state that holds a provider exactly when it holds an account (as
`initialState` and every state set by `SET_CONNECTED` with a non-empty account
do), the guard of `signMessage` fails as soon as neither the options nor the
state holds both. -/
theorem signMessage_guard_of_neither_source (w : World) (options : SignOptions)
    (hcoherent : w.state.provider.isSome = truthy w.state.account)
    (hoptions : ¬ (options.provider.isSome = true ∧ truthy options.account = true))
    (hstate : ¬ (w.state.provider.isSome = true ∧ truthy w.state.account = true)) :
    (options.provider = none ∧ w.state.provider = none) ∨
      (truthy options.account = false ∧ truthy w.state.account = false) := by
  cases hp : w.state.provider with
  | some p => simp [hp] at hcoherent hstate; simp [hcoherent] at hstate
  | none =>
    simp [hp] at hcoherent
    cases ho : options.provider with
    | none => exact Or.inl ⟨rfl, rfl⟩
    | some q =>
      simp [ho] at hoptions
      exact Or.inr ⟨hoptions, hcoherent⟩

/-- The reducer keeps the wallet state holding a provider exactly when it holds
an account, as long as `SET_CONNECTED` carries a non-empty account. -/
theorem walletReducer_coherent (state : WalletState) (action : Action)
    (h : state.provider.isSome = truthy state.account)
    (haction : ∀ p a c, action = .SET_CONNECTED p a c → a ≠ "") :
    (walletReducer state action).provider.isSome =
      truthy (walletReducer state action).account := by
  cases action with
  | SET_CONNECTED p a c =>
    have := haction p a c rfl
    simp [walletReducer, truthy, this]
  | SET_DISCONNECTED => rfl
  | SET_CONNECTING b => exact h
  | SET_ERROR e => exact h
  | SET_BALANCE b => exact h
  | SET_SIGNATURE sg => exact h
  | other => exact h

/-- C6. From every page, the `accountsChanged` listener given an empty account
list clears the global handle and yields the wallet state `initialState`; given
a non-empty list it leaves the page, handle and wallet state included, as it
was. -/
theorem accountsChanged_listener (w : World) :
    (onAccountsChanged w []).handle = none ∧
    (onAccountsChanged w []).state = initialState ∧
    (∀ (account : String) (others : List String),
      onAccountsChanged w (account :: others) = w) := by
  refine ⟨rfl, rfl, ?_⟩
  intro account others
  simp [onAccountsChanged]

/-! ## Properties of the API client -/

/-- A request that is already marked as retried is answered once and its
outcome passed on. -/
theorem apiClient_retried (tg : TelegramEnv) (fuel : Nat) (s : ApiState) (config : Request)
    (reply : NetReply) (rest : List NetReply)
    (hretry : config.retry = true) (hscript : s.script = reply :: rest) :
    apiClient tg (fuel + 1) s config =
      ({ s.note (.request (requestInterceptor s config)) with script := rest },
       passedOn (requestInterceptor s config) reply) := by
  have hr : (requestInterceptor s config).retry = true := by
    unfold requestInterceptor
    split <;> simp [hretry]
  cases reply with
  | response status body =>
    by_cases hok : okStatus status = true
    · simp [apiClient, ApiState.wire, hscript, passedOn, hok]
    · simp [apiClient, ApiState.wire, hscript, passedOn, hok, hr]
  | failure message =>
    simp [apiClient, ApiState.wire, hscript, passedOn, hr, networkError]

/-- A request answered `401` with no host identity data at hand: the stored
token is dropped and the error surfaced. -/
theorem apiClient_unauthorized_no_initData (tg : TelegramEnv) (fuel : Nat) (s : ApiState)
    (config : Request) (body : Option Body) (rest : List NetReply)
    (hretry : config.retry = false) (hscript : s.script = .response 401 body :: rest)
    (htg : (tg.webApp && truthy tg.initData) = false) :
    apiClient tg (fuel + 1) s config =
      ({ s.note (.request (requestInterceptor s config)) with script := rest, token := none },
       .failed (statusError { requestInterceptor s config with retry := true } 401 body)) := by
  have hr : (requestInterceptor s config).retry = false := by
    unfold requestInterceptor
    split <;> simp [hretry]
  have hok : okStatus 401 = false := by decide
  simp [apiClient, ApiState.wire, hscript, hok, hr, htg, statusError]

/-- With no token stored, `authenticateTelegram` whose two probes pass and whose
request is answered with a token stores the token and returns. -/
theorem authenticateWith_ok (tg : TelegramEnv) (fuel : Nat) (s : ApiState) (telegramData : String)
    (cors health : NetReply) (status : Nat) (data : Body) (rest : List NetReply)
    (htoken : s.token = none)
    (hscript : s.script = cors :: health :: .response status (some data) :: rest)
    (hcors : corsPasses cors = true) (hhealth : healthPasses health = true)
    (hstatus : okStatus status = true) (hdata : truthy data.token = true) :
    authenticateWith (apiClient tg (fuel + 1)) s telegramData =
      ({ token := data.token, script := rest,
         events := s.events ++ [.fetch (baseURL ++ "/api/debug/cors-test"),
                                .fetch (baseURL ++ "/health"),
                                .request (authRequest telegramData)] },
       .ok data) := by
  have htr : truthy (none : Option String) = false := rfl
  simp [authenticateWith, ApiState.wire, ApiState.note, hscript, hcors, hhealth, apiClient,
    requestInterceptor, htoken, htr, hstatus, hdata]

/-- A request answered `401` whose re-authentication fails: the error is
surfaced and the page is left as the re-authentication left it, the original
request not sent again. -/
theorem apiClient_unauthorized_refresh_failed (tg : TelegramEnv) (fuel : Nat) (s : ApiState)
    (config : Request) (body : Option Body) (rest : List NetReply) (e : JsError)
    (hretry : config.retry = false) (hscript : s.script = .response 401 body :: rest)
    (htg : (tg.webApp && truthy tg.initData) = true)
    (hfailed : (authenticateTelegram tg fuel (refreshStart tg s config rest)
        (tg.initData.getD "")).2 = .failed e) :
    apiClient tg (fuel + 1) s config =
      ((authenticateTelegram tg fuel (refreshStart tg s config rest) (tg.initData.getD "")).1,
       .failed (statusError { requestInterceptor s config with retry := true } 401 body)) := by
  have hr : (requestInterceptor s config).retry = false := by
    unfold requestInterceptor
    split <;> simp [hretry]
  have hok : okStatus 401 = false := by decide
  rw [apiClient]
  simp only [ApiState.wire, hscript, hok, hr, htg, statusError]
  simp only [Bool.false_eq_true, if_false, Option.map_some', Bool.not_false, Bool.and_true,
    decide_True, if_true]
  have hfailed1 := hfailed
  simp only [authenticateTelegram, refreshStart, ApiState.note] at hfailed1 ⊢
  rw [hfailed1]

/-- C7, as stated, fails. An authenticated request is answered `401`. On a page
without host `initData` the interceptor makes no refresh and no retry and
surfaces the `401`. On a page with host `initData` whose re-authentication
fails (the first connectivity probe gets no answer) the interceptor makes one
refresh and no retry and surfaces the `401`. -/
theorem unauthorized_without_retry :
    (refreshCount (apiClient { webApp := true, initData := none } 3
      { token := some "stale", script := [.response 401 none], events := [] }
      { method := "GET", url := "/api/user/comprehensive-status", data := [],
        authorization := none, retry := false }).1.events = 0 ∧
    retryCount (apiClient { webApp := true, initData := none } 3
      { token := some "stale", script := [.response 401 none], events := [] }
      { method := "GET", url := "/api/user/comprehensive-status", data := [],
        authorization := none, retry := false }).1.events = 0 ∧
    (apiClient { webApp := true, initData := none } 3
      { token := some "stale", script := [.response 401 none], events := [] }
      { method := "GET", url := "/api/user/comprehensive-status", data := [],
        authorization := none, retry := false }).2 =
      .failed (statusError
        { method := "GET", url := "/api/user/comprehensive-status", data := [],
          authorization := some "Bearer stale", retry := true } 401 none)) ∧
    (refreshCount (apiClient { webApp := true, initData := some "init" } 3
      { token := some "stale", script := [.response 401 none, .failure "Network Error"],
        events := [] }
      { method := "GET", url := "/api/user/comprehensive-status", data := [],
        authorization := none, retry := false }).1.events = 1 ∧
    retryCount (apiClient { webApp := true, initData := some "init" } 3
      { token := some "stale", script := [.response 401 none, .failure "Network Error"],
        events := [] }
      { method := "GET", url := "/api/user/comprehensive-status", data := [],
        authorization := none, retry := false }).1.events = 0 ∧
    (apiClient { webApp := true, initData := some "init" } 3
      { token := some "stale", script := [.response 401 none, .failure "Network Error"],
        events := [] }
      { method := "GET", url := "/api/user/comprehensive-status", data := [],
        authorization := none, retry := false }).2 =
      .failed (statusError
        { method := "GET", url := "/api/user/comprehensive-status", data := [],
          authorization := some "Bearer stale", retry := true } 401 none)) := by
  constructor
  · have h := apiClient_unauthorized_no_initData { webApp := true, initData := none } 2
      { token := some "stale", script := [.response 401 none], events := [] }
      { method := "GET", url := "/api/user/comprehensive-status", data := [],
        authorization := none, retry := false } none [] rfl rfl rfl
    rw [h]
    refine ⟨by decide, by decide, ?_⟩
    simp [requestInterceptor, truthy]
  · have h := apiClient_unauthorized_refresh_failed { webApp := true, initData := some "init" } 2
      { token := some "stale", script := [.response 401 none, .failure "Network Error"],
        events := [] }
      { method := "GET", url := "/api/user/comprehensive-status", data := [],
        authorization := none, retry := false } none [.failure "Network Error"]
      (mkError ERROR_MESSAGES.UNAUTHORIZED) rfl rfl rfl rfl
    rw [h]
    refine ⟨by decide, by decide, ?_⟩
    simp [requestInterceptor, truthy]

/-- C7, as amended. An authenticated request, not yet retried, is answered
`401`. Without host `initData` the interceptor makes no refresh and no retry
and surfaces the `401`. With host `initData`, when the re-authentication
succeeds (both probes pass and the authentication request is answered with a
token), the interceptor makes exactly one refresh and exactly one retry of the
original request, and the outcome of the retry is the outcome of the call: in
particular a second `401` is surfaced with no further refresh and no further
retry. When the re-authentication fails, the `401` is surfaced and the original
request is not retried: the page is left as the re-authentication left it. -/
theorem unauthorized_refresh_and_retry_once (tg : TelegramEnv) (fuel : Nat) (s : ApiState)
    (config : Request) (body : Option Body) (rest : List NetReply)
    (hretry : config.retry = false) (hscript : s.script = .response 401 body :: rest) :
    ((tg.webApp && truthy tg.initData) = false →
      (apiClient tg (fuel + 2) s config).2 =
        .failed (statusError { requestInterceptor s config with retry := true } 401 body) ∧
      (apiClient tg (fuel + 2) s config).1.events =
        s.events ++ [.request (requestInterceptor s config)]) ∧
    (∀ (cors health final : NetReply) (status : Nat) (data : Body) (rest1 : List NetReply),
      (tg.webApp && truthy tg.initData) = true →
      rest = cors :: health :: .response status (some data) :: final :: rest1 →
      corsPasses cors = true → healthPasses health = true →
      okStatus status = true → truthy data.token = true →
      (apiClient tg (fuel + 2) s config).2 =
        passedOn (retriedRequest (requestInterceptor s config) data.token) final ∧
      (∀ body2, final = .response 401 body2 →
        (apiClient tg (fuel + 2) s config).2 =
          .failed (statusError (retriedRequest (requestInterceptor s config) data.token)
            401 body2)) ∧
      (apiClient tg (fuel + 2) s config).1.events =
        s.events ++ [.request (requestInterceptor s config),
                     .refresh (tg.initData.getD ""),
                     .fetch (baseURL ++ "/api/debug/cors-test"),
                     .fetch (baseURL ++ "/health"),
                     .request (authRequest (tg.initData.getD "")),
                     .retry (retriedRequest (requestInterceptor s config) data.token),
                     .request (retriedRequest (requestInterceptor s config) data.token)] ∧
      refreshCount (apiClient tg (fuel + 2) s config).1.events = refreshCount s.events + 1 ∧
      retryCount (apiClient tg (fuel + 2) s config).1.events = retryCount s.events + 1 ∧
      (apiClient tg (fuel + 2) s config).1.script = rest1) ∧
    (∀ e : JsError, (tg.webApp && truthy tg.initData) = true →
      (authenticateTelegram tg (fuel + 1) (refreshStart tg s config rest)
        (tg.initData.getD "")).2 = .failed e →
      (apiClient tg (fuel + 2) s config).2 =
        .failed (statusError { requestInterceptor s config with retry := true } 401 body) ∧
      (apiClient tg (fuel + 2) s config).1 =
        (authenticateTelegram tg (fuel + 1) (refreshStart tg s config rest)
          (tg.initData.getD "")).1) := by
  refine ⟨?_, ?_, ?_⟩
  · intro htg
    rw [apiClient_unauthorized_no_initData tg (fuel + 1) s config body rest hretry hscript htg]
    simp [ApiState.note]
  · intro cors health final status data rest1 htg hrest hcors hhealth hstatus hdata
    have hr : (requestInterceptor s config).retry = false := by
      unfold requestInterceptor
      split <;> simp [hretry]
    have hok : okStatus 401 = false := by decide
    have hauth := authenticateWith_ok tg fuel
      ({ (s.note (.request (requestInterceptor s config))) with
          script := rest, token := none }.note (.refresh (tg.initData.getD "")))
      (tg.initData.getD "") cors health status data (final :: rest1) rfl
      (by simp [ApiState.note, hrest]) hcors hhealth hstatus hdata
    have hmain : apiClient tg (fuel + 2) s config =
        ({ token := data.token, script := rest1,
           events := s.events ++ [.request (requestInterceptor s config),
                     .refresh (tg.initData.getD ""),
                     .fetch (baseURL ++ "/api/debug/cors-test"),
                     .fetch (baseURL ++ "/health"),
                     .request (authRequest (tg.initData.getD "")),
                     .retry (retriedRequest (requestInterceptor s config) data.token),
                     .request (retriedRequest (requestInterceptor s config) data.token)] },
         passedOn (retriedRequest (requestInterceptor s config) data.token) final) := by
      rw [apiClient]
      simp only [ApiState.wire, hscript, hok, hr, htg, statusError]
      simp only [Bool.false_eq_true, if_false, Option.map_some', Bool.not_false, Bool.and_true,
        decide_True, if_true]
      rw [hauth]
      simp only [hdata, if_true]
      rw [apiClient_retried tg fuel _ _ final rest1 (by simp [retriedRequest])
        (by simp [ApiState.note])]
      have hri : ∀ (st : ApiState), st.token = data.token →
          requestInterceptor st (retriedRequest (requestInterceptor s config) data.token) =
            retriedRequest (requestInterceptor s config) data.token := by
        intro st hst
        simp [requestInterceptor, hst, hdata, retriedRequest]
      rw [hri _ (by simp [ApiState.note])]
      simp [ApiState.note]
    rw [hmain]
    refine ⟨rfl, ?_, rfl, ?_, ?_, rfl⟩
    · intro body2 hfinal
      simp [hfinal, passedOn, hok]
    · simp [refreshCount, List.countP_append, List.countP_cons]
    · simp [retryCount, List.countP_append, List.countP_cons]
  · intro e htg hfailed
    rw [apiClient_unauthorized_refresh_failed tg (fuel + 1) s config body rest e hretry hscript
      htg hfailed]
    exact ⟨rfl, rfl⟩

theorem unauthorized_refresh_and_retry_once_witness :
    (apiClient { webApp := true, initData := some "init" } 2
      { token := some "stale",
        script := [.response 401 none, .response 200 (some ⟨none, none, "cors"⟩),
                   .response 200 none, .response 200 (some ⟨some "fresh", none, ""⟩),
                   .response 401 none],
        events := [] }
      { method := "GET", url := "/api/user/comprehensive-status", data := [],
        authorization := none, retry := false }).2 =
      .failed (statusError
        (retriedRequest
          (requestInterceptor
            { token := some "stale",
              script := [.response 401 none, .response 200 (some ⟨none, none, "cors"⟩),
                         .response 200 none, .response 200 (some ⟨some "fresh", none, ""⟩),
                         .response 401 none],
              events := [] }
            { method := "GET", url := "/api/user/comprehensive-status", data := [],
              authorization := none, retry := false })
          (some "fresh"))
        401 none) :=
  ((unauthorized_refresh_and_retry_once { webApp := true, initData := some "init" } 0
      { token := some "stale",
        script := [.response 401 none, .response 200 (some ⟨none, none, "cors"⟩),
                   .response 200 none, .response 200 (some ⟨some "fresh", none, ""⟩),
                   .response 401 none],
        events := [] }
      { method := "GET", url := "/api/user/comprehensive-status", data := [],
        authorization := none, retry := false }
      none _ rfl rfl).2.1
    (.response 200 (some ⟨none, none, "cors"⟩)) (.response 200 none) (.response 401 none) 200
    ⟨some "fresh", none, ""⟩ [] rfl rfl rfl rfl rfl rfl).2.1 none rfl

theorem SentOnly.refl (P : Request → Prop) (s : ApiState) : SentOnly P s s :=
  ⟨[], by simp, by simp⟩

theorem SentOnly.trans {P : Request → Prop} {s s1 s2 : ApiState}
    (h1 : SentOnly P s s1) (h2 : SentOnly P s1 s2) : SentOnly P s s2 := by
  obtain ⟨a1, e1, p1⟩ := h1
  obtain ⟨a2, e2, p2⟩ := h2
  refine ⟨a1 ++ a2, by rw [e2, e1, List.append_assoc], ?_⟩
  intro c hc
  rcases List.mem_append.mp hc with h | h
  · exact p1 c h
  · exact p2 c h

theorem SentOnly.mono {P Q : Request → Prop} {s s1 : ApiState} (hPQ : ∀ c, P c → Q c)
    (h : SentOnly P s s1) : SentOnly Q s s1 := by
  obtain ⟨a, e, p⟩ := h
  exact ⟨a, e, fun c hc => hPQ c (p c hc)⟩

theorem SentOnly.of_events_eq {P : Request → Prop} {s : ApiState} (s1 : ApiState)
    {s2 : ApiState} (he : s2.events = s1.events) (h : SentOnly P s s1) : SentOnly P s s2 := by
  obtain ⟨a, e, p⟩ := h
  exact ⟨a, by rw [he, e], p⟩

theorem SentOnly.note_other (P : Request → Prop) (s : ApiState) (e : ApiEvent)
    (he : ∀ c, e ≠ .request c) : SentOnly P s (s.note e) := by
  refine ⟨[e], rfl, ?_⟩
  intro c hc
  simp only [List.mem_singleton] at hc
  exact absurd hc.symm (he c)

theorem SentOnly.note_request (P : Request → Prop) (s : ApiState) (c : Request) (hc : P c) :
    SentOnly P s (s.note (.request c)) := by
  refine ⟨[.request c], rfl, ?_⟩
  intro c1 h1
  simp only [List.mem_singleton, ApiEvent.request.injEq] at h1
  rw [h1]
  exact hc

theorem ApiState.wire_events (s : ApiState) (e : ApiEvent) :
    (s.wire e).1.events = s.events ++ [e] := by
  unfold ApiState.wire
  cases s.script <;> rfl

theorem SentOnly.wire_other (P : Request → Prop) (s : ApiState) (e : ApiEvent)
    (he : ∀ c, e ≠ .request c) : SentOnly P s (s.wire e).1 :=
  SentOnly.of_events_eq (s.note e) (by rw [ApiState.wire_events]; rfl)
    (SentOnly.note_other P s e he)

theorem SentOnly.wire_request (P : Request → Prop) (s : ApiState) (c : Request) (hc : P c) :
    SentOnly P s (s.wire (.request c)).1 :=
  SentOnly.of_events_eq (s.note (.request c)) (by rw [ApiState.wire_events]; rfl)
    (SentOnly.note_request P s c hc)

/-- The request interceptor leaves method, address and body as they are. -/
theorem requestInterceptor_sameCall (s : ApiState) (config : Request) :
    SameCall config (requestInterceptor s config) := by
  unfold requestInterceptor SameCall
  split <;> simp

/-- `authenticateTelegram` sends authentication requests only. -/
theorem authenticateWith_sentOnly (client : ApiState → Request → ApiState × ApiResult)
    (hclient : ∀ s config, SentOnly (SameCall config) s (client s config).1)
    (s : ApiState) (telegramData : String) :
    SentOnly (fun c => c.url = "/api/auth/telegram") s
      (authenticateWith client s telegramData).1 := by
  have h1 : SentOnly (fun c => c.url = "/api/auth/telegram") s
      (s.wire (.fetch (baseURL ++ "/api/debug/cors-test"))).1 :=
    SentOnly.wire_other _ _ _ (by intro c h; cases h)
  have h2 : SentOnly (fun c => c.url = "/api/auth/telegram")
      (s.wire (.fetch (baseURL ++ "/api/debug/cors-test"))).1
      ((s.wire (.fetch (baseURL ++ "/api/debug/cors-test"))).1.wire
        (.fetch (baseURL ++ "/health"))).1 :=
    SentOnly.wire_other _ _ _ (by intro c h; cases h)
  have h3 : SentOnly (fun c => c.url = "/api/auth/telegram")
      ((s.wire (.fetch (baseURL ++ "/api/debug/cors-test"))).1.wire
        (.fetch (baseURL ++ "/health"))).1
      (client ((s.wire (.fetch (baseURL ++ "/api/debug/cors-test"))).1.wire
        (.fetch (baseURL ++ "/health"))).1 (authRequest telegramData)).1 := by
    refine SentOnly.mono ?_ (hclient _ _)
    intro c hc
    rcases hc with ⟨_, hu, _⟩ | hu
    · rw [hu]; rfl
    · exact hu
  have h123 := (h1.trans h2).trans h3
  unfold authenticateWith
  dsimp only
  split
  · exact h1
  · split
    · exact h1.trans h2
    · split
      · split
        · exact SentOnly.of_events_eq _ rfl h123
        · exact h123
      · exact h123
      · exact h123
      · exact h123

/-- After its own request is on the wire, a call of the axios instance sends only
repetitions of that request and authentication requests. -/
theorem apiClient_after_request (tg : TelegramEnv) (fuel : Nat)
    (ih : ∀ s config, SentOnly (SameCall config) s (apiClient tg fuel s config).1)
    (s : ApiState) (config : Request) :
    SentOnly (SameCall config) (s.wire (.request (requestInterceptor s config))).1
      (apiClient tg (fuel + 1) s config).1 := by
  have hauth : ∀ st d, SentOnly (SameCall config) st
      (authenticateWith (apiClient tg fuel) st d).1 := by
    intro st d
    exact SentOnly.mono (fun c hc => Or.inr hc) (authenticateWith_sentOnly _ ih st d)
  have hagain : ∀ st token, SentOnly (SameCall config) st
      (apiClient tg fuel st (retriedRequest (requestInterceptor s config) token)).1 := by
    intro st token
    refine SentOnly.mono ?_ (ih st _)
    intro c hc
    rcases hc with ⟨hm, hu, hd⟩ | hu
    · rcases requestInterceptor_sameCall s config with ⟨hm1, hu1, hd1⟩ | hu1
      · exact Or.inl ⟨by rw [hm]; exact hm1, by rw [hu]; exact hu1, by rw [hd]; exact hd1⟩
      · exact Or.inr (by rw [hu]; exact hu1)
    · exact Or.inr hu
  have hrefresh : ∀ (st : ApiState) d, SentOnly (SameCall config) st
      (authenticateWith (apiClient tg fuel) ({ st with token := none }.note (.refresh d)) d).1 :=
    fun st d => SentOnly.trans
      (SentOnly.of_events_eq (st.note (.refresh d)) rfl
        (SentOnly.note_other _ st _ (by intro c h; cases h)))
      (hauth _ d)
  have hretry : ∀ (st : ApiState) token, SentOnly (SameCall config) st
      (apiClient tg fuel (st.note (.retry (retriedRequest (requestInterceptor s config) token)))
        (retriedRequest (requestInterceptor s config) token)).1 :=
    fun st token => SentOnly.trans (SentOnly.note_other _ st _ (by intro c h; cases h))
      (hagain _ token)
  rw [apiClient]
  dsimp only
  split
  · split
    · exact SentOnly.refl _ _
    · split
      · split
        · split
          · split
            · exact (hrefresh _ _).trans (hretry _ _)
            · exact hrefresh _ _
          · exact hrefresh _ _
          · exact hrefresh _ _
        · exact SentOnly.of_events_eq _ rfl (SentOnly.refl _ _)
      · exact SentOnly.refl _ _
  · split
    · split
      · split
        · split
          · exact (hrefresh _ _).trans (hretry _ _)
          · exact hrefresh _ _
        · exact hrefresh _ _
        · exact hrefresh _ _
      · exact SentOnly.of_events_eq _ rfl (SentOnly.refl _ _)
    · exact SentOnly.refl _ _

/-- A call of the axios instance sends only its own request, repetitions of it
and authentication requests. -/
theorem apiClient_sentOnly (tg : TelegramEnv) :
    ∀ (fuel : Nat) (s : ApiState) (config : Request),
      SentOnly (SameCall config) s (apiClient tg fuel s config).1
  | 0, s, _ => SentOnly.refl _ s
  | fuel + 1, s, config =>
    SentOnly.trans
      (SentOnly.wire_request _ s _ (requestInterceptor_sameCall s config))
      (apiClient_after_request tg fuel (apiClient_sentOnly tg fuel) s config)

/-- A call of the axios instance that is allowed a step puts its request on the
wire first. -/
theorem apiClient_first_request (tg : TelegramEnv) (fuel : Nat) (s : ApiState)
    (config : Request) :
    ∃ more, (apiClient tg (fuel + 1) s config).1.events =
      s.events ++ ApiEvent.request (requestInterceptor s config) :: more := by
  obtain ⟨added, he, _⟩ := apiClient_after_request tg fuel (apiClient_sentOnly tg fuel) s config
  refine ⟨added, ?_⟩
  rw [he, ApiState.wire_events, List.append_assoc]
  rfl

/-- `verifyWallet` sends only its verification request, repetitions of it and
authentication requests. -/
theorem verifyWallet_sentOnly (tg : TelegramEnv) (fuel : Nat) (s : ApiState) (args : VerifyArgs) :
    SentOnly (SameCall (verifyRequest args)) s (verifyWallet tg fuel s args).1 := by
  have hpost : ∀ st : ApiState, SentOnly (SameCall (verifyRequest args)) st
      (apiClient tg fuel st (verifyRequest args)).1 := fun st => apiClient_sentOnly tg fuel st _
  have hauth : SentOnly (SameCall (verifyRequest args)) s
      (authenticateTelegram tg fuel s (tg.initData.getD "")).1 :=
    SentOnly.mono (fun c hc => Or.inr hc)
      (authenticateWith_sentOnly _ (apiClient_sentOnly tg fuel) s _)
  unfold verifyWallet
  dsimp only
  repeat' split
  all_goals first
    | exact SentOnly.refl _ _
    | exact hauth
    | exact hpost _
    | exact hauth.trans (hpost _)

/-- With a session token stored, `verifyWallet` posts its verification request. -/
theorem verifyWallet_posts (tg : TelegramEnv) (fuel : Nat) (s : ApiState) (args : VerifyArgs)
    (htoken : truthy s.token = true) :
    ∃ more, (verifyWallet tg (fuel + 1) s args).1.events =
      s.events ++ ApiEvent.request (requestInterceptor s (verifyRequest args)) :: more := by
  obtain ⟨more, hmore⟩ := apiClient_first_request tg fuel s (verifyRequest args)
  refine ⟨more, ?_⟩
  rw [← hmore]
  unfold verifyWallet
  dsimp only
  simp only [htoken, Bool.not_true, Bool.and_false, Bool.false_eq_true, if_false]
  split <;> split <;> rfl

/-! ## Properties of the connect-and-verify handler -/

/-- C8. For every connection result with a non-empty account `a` (the relay
session, if there is one, still active) and every non-empty signature `s`:
`handleConnectWallet` passes `VERIFICATION_MESSAGE` and `a` to `signMessage`;
when `signMessage` returns `s` it calls `verifyWallet` with `walletAddress = a`,
`signature = s` and `message = VERIFICATION_MESSAGE`; every request that
`verifyWallet` then sends to `/api/wallet/verify` is a `POST` whose body is
exactly `wallet_address = a`, `signature = s`, `message = VERIFICATION_MESSAGE`;
and with a session token stored that request is sent. -/
theorem verification_carries_signature (cenv : ComponentEnv) (w w1 : World) (c c1 : Component)
    (r : CwResult) (s : String)
    (haccount : r.account ≠ "")
    (hsession : ∀ wc, w.handle = some wc → wc.inactive = false)
    (hs : s ≠ "") :
    (∃ c2, handleConnectWalletResume cenv w c .connection (.connected (some r)) =
          some (c2, .awaiting (.signature r.account)) ∧
        c2.log.getLast? = some (.signMessage VERIFICATION_MESSAGE
          { provider := some r.provider, account := some r.account })) ∧
    handleConnectWalletResume cenv w1 c1 (.signature r.account) (.signature (some s)) =
      some (c1.emit [.toastDismiss "signature", .toastDismiss "signature-instructions",
                     .toastLoading "Verifying with server...",
                     .verifyWallet { walletAddress := r.account, signature := s,
                                     message := VERIFICATION_MESSAGE }],
            .awaiting .verification) ∧
    (∀ (tg : TelegramEnv) (fuel : Nat) (api : ApiState),
      ∃ added,
        (verifyWallet tg fuel api
          { walletAddress := r.account, signature := s,
            message := VERIFICATION_MESSAGE }).1.events = api.events ++ added ∧
        ∀ config, ApiEvent.request config ∈ added → config.url = "/api/wallet/verify" →
          config.method = "POST" ∧
          config.data = [("wallet_address", r.account), ("signature", s),
                         ("message", VERIFICATION_MESSAGE)]) ∧
    (∀ (tg : TelegramEnv) (fuel : Nat) (api : ApiState), truthy api.token = true →
      ∃ config more,
        (verifyWallet tg (fuel + 1) api
          { walletAddress := r.account, signature := s,
            message := VERIFICATION_MESSAGE }).1.events =
          api.events ++ ApiEvent.request config :: more ∧
        config.url = "/api/wallet/verify" ∧ config.method = "POST" ∧
        config.data = [("wallet_address", r.account), ("signature", s),
                       ("message", VERIFICATION_MESSAGE)]) := by
  refine ⟨?_, ?_, ?_, ?_⟩
  · have hlost : (match w.handle with
        | some wcProvider => wcProvider.inactive
        | none => false) = false := by
      cases hh : w.handle with
      | none => rfl
      | some wc => exact hsession wc hh
    simp only [handleConnectWalletResume, haccount, if_false, hlost, Bool.false_eq_true]
    refine ⟨_, rfl, ?_⟩
    simp [Component.emit]
  · simp [handleConnectWalletResume, hs]
  · intro tg fuel api
    obtain ⟨added, he, hp⟩ := verifyWallet_sentOnly tg fuel api
      { walletAddress := r.account, signature := s, message := VERIFICATION_MESSAGE }
    refine ⟨added, he, ?_⟩
    intro config hc hurl
    rcases hp config hc with ⟨hm, _, hd⟩ | hu
    · exact ⟨hm, hd⟩
    · rw [hurl] at hu
      exact absurd hu (by decide)
  · intro tg fuel api htoken
    obtain ⟨more, hmore⟩ := verifyWallet_posts tg fuel api
      { walletAddress := r.account, signature := s, message := VERIFICATION_MESSAGE } htoken
    refine ⟨_, more, hmore, ?_, ?_, ?_⟩ <;>
      simp [requestInterceptor, htoken, verifyRequest]

theorem verification_carries_signature_witness :
    handleConnectWalletResume { isTelegramMiniApp := true, isTelegramReady := true }
        { handle := none, state := initialState, localStorage := [], sessionStorage := [],
          log := [] }
        Component.initial (.signature "0xABCDEF1234") (.signature (some "0x5161")) =
      some (Component.initial.emit
              [.toastDismiss "signature", .toastDismiss "signature-instructions",
               .toastLoading "Verifying with server...",
               .verifyWallet { walletAddress := "0xABCDEF1234", signature := "0x5161",
                               message := VERIFICATION_MESSAGE }],
            .awaiting .verification) :=
  (verification_carries_signature { isTelegramMiniApp := true, isTelegramReady := true }
    { handle := none, state := initialState, localStorage := [], sessionStorage := [], log := [] }
    { handle := none, state := initialState, localStorage := [], sessionStorage := [], log := [] }
    Component.initial Component.initial
    { provider := { relay := true, hasDisconnect := false }, account := "0xABCDEF1234",
      chainId := 1, balance := "0.0" }
    "0x5161" (by decide) (fun _ h => nomatch h) (by decide)).2.1

/-- C9, evaluated. When the 45 s timer wins the race, `handleConnectWallet`
hands to `onError` the message of the network branch, `Network connection
failed - please check your connection and try again`, and shows the network
toast: the error `Wallet connection timeout (45 seconds)` contains `timeout`,
which that branch matches. -/
theorem outer_timeout_reported_as_network_failure (cenv : ComponentEnv) (w : World)
    (c : Component) :
    handleConnectWalletResume cenv w c .connection .timeout =
      some ((c.emit [.consoleError "Wallet connection error!", .toastDismiss "auth",
                     .toastDismiss "signature", .toastDismiss "verification",
                     .hapticFeedback "error", .toastError "🌐 Network connection failed",
                     .onError "Network connection failed - please check your connection and try again"]).settle,
            .finished) := by
  have h : hcErrorMessage (mkError "Wallet connection timeout (45 seconds)") =
      ("Network connection failed - please check your connection and try again",
       "🌐 Network connection failed") := by decide
  simp [handleConnectWalletResume, hcCatch, h]

/-- C10, evaluated. The relay connect has initialised the SDK (the handle is
stored) and awaits `enable()` when the 45 s timer fires: `handleConnectWallet`
reports the error and ends, `connectWallet` is still suspended, and the global
handle is still set. The same holds when the timer fires after `enable()` has
resolved, while `getSigner()` is pending. -/
theorem outer_timeout_leaves_handle :
    (outerTimeoutPage.handler = .finished ∧
      outerTimeoutPage.component.log.getLast? =
        some (.onError
          "Network connection failed - please check your connection and try again") ∧
      outerTimeoutPage.connectCall = some (.awaiting .enable) ∧
      outerTimeoutPage.world.handle =
        some { connected := false, accounts := none, session := false }) ∧
    (outerTimeoutSignerPage.handler = .finished ∧
      outerTimeoutSignerPage.component.log.getLast? =
        some (.onError
          "Network connection failed - please check your connection and try again") ∧
      outerTimeoutSignerPage.connectCall =
        some (.awaiting (.getSigner { relay := true, hasDisconnect := false })) ∧
      outerTimeoutSignerPage.world.handle =
        some { connected := true, accounts := some ["0xABCDEF1234"], session := true }) := by
  decide

/-! ## Properties of `formatAddress` -/

/-- The output of `formatAddress` on an address longer than the guard allows, with
the default lengths. -/
theorem formatAddress_long {α : Type} (dot : α) (a : List α) (h : 10 < a.length) :
    formatAddress dot (some a) 6 4 = a.take 6 ++ [dot, dot, dot] ++ a.drop (a.length - 4) := by
  unfold formatAddress sliceLast
  have h0 : a.length ≠ 0 := by omega
  have h1 : ¬ a.length ≤ 6 + 4 := by omega
  simp [h0, h1]

/-- C12. For every address of more than 10 units, `formatAddress` with the
default lengths gives the first 6 units of the address, then `...`, then its
last 4 units; a non-empty address of at most 10 units is returned unchanged; an
empty or missing address gives the empty string. -/
theorem formatAddress_default {α : Type} (dot : α) :
    (∀ a : List α, 10 < a.length →
      ∃ first last, first <+: a ∧ last <:+ a ∧ first.length = 6 ∧ last.length = 4 ∧
        formatAddress dot (some a) 6 4 = first ++ [dot, dot, dot] ++ last) ∧
    (∀ a : List α, a ≠ [] → a.length ≤ 10 → formatAddress dot (some a) 6 4 = a) ∧
    formatAddress dot (some []) 6 4 = [] ∧
    formatAddress dot none 6 4 = [] := by
  refine ⟨?_, ?_, rfl, rfl⟩
  · intro a h
    refine ⟨a.take 6, a.drop (a.length - 4), List.take_prefix 6 a, List.drop_suffix _ a, ?_, ?_,
      formatAddress_long dot a h⟩
    · rw [List.length_take]; omega
    · rw [List.length_drop]; omega
  · intro a hne hlen
    unfold formatAddress
    have h0 : a.length ≠ 0 := by
      intro h; exact hne (List.length_eq_zero.mp h)
    simp [h0, hlen]

theorem formatAddress_default_witness :
    10 < "0xABCDEF0123456789abcdef0123456789ABCD1234".toList.length ∧
    ∃ first last, first <+: "0xABCDEF0123456789abcdef0123456789ABCD1234".toList ∧
      last <:+ "0xABCDEF0123456789abcdef0123456789ABCD1234".toList ∧
      first.length = 6 ∧ last.length = 4 ∧
      formatAddress '.' (some "0xABCDEF0123456789abcdef0123456789ABCD1234".toList) 6 4 =
        first ++ ['.', '.', '.'] ++ last :=
  ⟨(by decide),
    (formatAddress_default '.').1 "0xABCDEF0123456789abcdef0123456789ABCD1234".toList
      (by decide)⟩

/-- An evaluation of `formatAddress` on an address of 42 characters. -/
theorem formatAddress_example :
    formatAddress '.' (some "0xABCDEF0123456789abcdef0123456789ABCD1234".toList) 6 4 =
      "0xABCD...1234".toList := by
  decide

/-- C13. With its default lengths `formatAddress` is idempotent: applied to its
own output it returns that output. -/
theorem formatAddress_idempotent {α : Type} (dot : α) (a : Option (List α)) :
    formatAddress dot (some (formatAddress dot a 6 4)) 6 4 = formatAddress dot a 6 4 := by
  cases a with
  | none => rfl
  | some a =>
    by_cases h0 : a.length = 0
    · have : formatAddress dot (some a) 6 4 = [] := by simp [formatAddress, h0]
      rw [this]; rfl
    · by_cases h1 : a.length ≤ 10
      · have : formatAddress dot (some a) 6 4 = a := by simp [formatAddress, h0, h1]
        rw [this, this]
      · have hlong : 10 < a.length := by omega
        rw [formatAddress_long dot a hlong]
        have hlen : (a.take 6 ++ [dot, dot, dot] ++ a.drop (a.length - 4)).length = 13 := by
          simp [List.length_take, List.length_drop]; omega
        rw [formatAddress_long dot _ (by rw [hlen]; omega), hlen]
        have ht : (a.take 6).length = 6 := by rw [List.length_take]; omega
        have hp : (a.take 6 ++ [dot, dot, dot]).length = 9 := by simp [ht]
        congr 1
        · congr 1
          rw [List.append_assoc, List.take_append_of_le_length (by omega)]
          rw [List.take_of_length_le (by omega)]
        · rw [List.drop_append_of_le_length (by omega)]
          simp [List.drop_eq_nil_of_le, hp]

/-- C14, as stated, fails. The output for an address of 18 characters has 13
characters, more than the 10 the length guard of the default lengths allows. -/
theorem formatAddress_output_exceeds_guard :
    (formatAddress '.' (some "0x1234567890abcdef".toList) 6 4).length = 13 ∧
    ¬ (formatAddress '.' (some "0x1234567890abcdef".toList) 6 4).length ≤ 6 + 4 := by
  decide

/-- C14, as amended. For an address of at most `startLength + endLength` units
the output is at most that long and a second application returns it unchanged,
through the early return of the guard. For a longer address (and `endLength` at
least 1) the output has `startLength + 3 + endLength` units, 13 with the
defaults: it is longer than the guard allows, so a second application does not
return early. -/
theorem formatAddress_length {α : Type} (dot : α) (a : Option (List α))
    (startLength endLength : Nat) :
    ((a.getD []).length ≤ startLength + endLength →
      (formatAddress dot a startLength endLength).length ≤ startLength + endLength ∧
      formatAddress dot (some (formatAddress dot a startLength endLength)) startLength endLength =
        formatAddress dot a startLength endLength) ∧
    (startLength + endLength < (a.getD []).length → 1 ≤ endLength →
      (formatAddress dot a startLength endLength).length = startLength + 3 + endLength ∧
      ¬ (formatAddress dot a startLength endLength).length ≤ startLength + endLength) := by
  cases a with
  | none =>
    refine ⟨fun _ => ⟨by simp [formatAddress], rfl⟩, ?_⟩
    intro h
    simp at h
  | some a =>
    constructor
    · intro h
      simp only [Option.getD_some] at h
      by_cases h0 : a.length = 0
      · have : formatAddress dot (some a) startLength endLength = [] := by
          simp [formatAddress, h0]
        rw [this]
        exact ⟨by simp, rfl⟩
      · have : formatAddress dot (some a) startLength endLength = a := by
          simp [formatAddress, h0, h]
        rw [this, this]
        exact ⟨h, rfl⟩
    · intro h he
      simp only [Option.getD_some] at h
      have h0 : a.length ≠ 0 := by omega
      have h1 : ¬ a.length ≤ startLength + endLength := by omega
      have he0 : endLength ≠ 0 := by omega
      have hlen : (formatAddress dot (some a) startLength endLength).length =
          startLength + 3 + endLength := by
        simp [formatAddress, sliceLast, h0, h1, he0, List.length_take, List.length_drop]
        omega
      exact ⟨hlen, by rw [hlen]; omega⟩

theorem formatAddress_length_witness :
    6 + 4 < ((some "0x1234567890abcdef".toList).getD []).length ∧ 1 ≤ 4 ∧
    (formatAddress '.' (some "0x1234567890abcdef".toList) 6 4).length = 6 + 3 + 4 :=
  ⟨(by decide), (by decide),
    ((formatAddress_length '.' (some "0x1234567890abcdef".toList) 6 4).2 (by decide)
      (by decide)).1⟩

/-! ## Further properties of the wallet context -/

/-- C15, evaluated. On a page whose local storage holds the keys
`WALLETCONNECT_DEEPLINK_CHOICE`, `wc@2:client:0.3//session` and `theme`,
`forceCleanup` removes the second key only, while the storage cleanup at the
start of a relay `connectWallet` removes the first two. -/
theorem forceCleanup_keeps_upper_case_key :
    (forceCleanup staleSessionWorld).1.localStorage.keys =
      ["WALLETCONNECT_DEEPLINK_CHOICE", "theme"] ∧
    (connectWallet relayEnv staleSessionWorld "walletconnect").1.localStorage.keys =
      ["theme"] := by
  decide

/-- C16. When `connectWallet` has obtained accounts, signer, address and network
and awaits the balance, a balance fetch that throws or that the 10 s timer
beats does not fail the connect: it returns the account and chain id with
balance `0.0`, and the wallet state has `isConnected` true, `error` null and
`balance` `0.0`. -/
theorem connectWallet_balance_failure_not_fatal (env : PageEnv) (w : World)
    (provider : EthersProvider) (account : String) (chainId : Int) (e : JsError) :
    (connectWalletResume env w (.getBalance provider account chainId) (.error e) =
        some (cwConnected w provider account chainId "0.0") ∧
      connectWalletResume env w (.getBalance provider account chainId) .timeout =
        some (cwConnected w provider account chainId "0.0")) ∧
    (cwConnected w provider account chainId "0.0").2 =
      .returned { provider := provider, account := account, chainId := chainId,
                  balance := "0.0" } ∧
    (cwConnected w provider account chainId "0.0").1.state.isConnected = true ∧
    (cwConnected w provider account chainId "0.0").1.state.error = none ∧
    (cwConnected w provider account chainId "0.0").1.state.balance = some "0.0" ∧
    (cwConnected w provider account chainId "0.0").1.state.account = some account ∧
    (cwConnected w provider account chainId "0.0").1.state.chainId = some chainId :=
  ⟨⟨rfl, rfl⟩, rfl, rfl, rfl, rfl, rfl, rfl⟩

/-- A relay connect on a fresh page whose balance fetch times out, from the call
to its return. -/
theorem connectWallet_balance_timeout_example :
    connectWalletRun relayEnv freshWorld "walletconnect"
        [.provider freshProvider,
         .provider { connected := true, accounts := some ["0xabcdef1234"], session := true },
         .done, .address "0xABCDEF1234", .network 1, .timeout] =
      ({ handle := some { connected := true, accounts := some ["0xabcdef1234"],
                          session := true },
         state := { provider := some { relay := true, hasDisconnect := false },
                    account := some "0xABCDEF1234", chainId := some 1, isConnected := true,
                    isConnecting := false, error := none, balance := some "0.0",
                    signature := none },
         localStorage := [], sessionStorage := [],
         log := [.sdkInit, .enable, .getSigner, .getAddress, .getNetwork,
                 .getBalance "0xABCDEF1234", .toastSuccess "Wallet connected successfully!"] },
       .returned { provider := { relay := true, hasDisconnect := false },
                   account := "0xABCDEF1234", chainId := 1, balance := "0.0" }) := by
  decide

/-- The hexadecimal form of a short message. -/
theorem messageHex_example : messageHex "Sign é" = "0x5369676e20c3a9" := by
  decide

/-- C17. With a provider and an account passed in the options: when a relay
handle exists and passes the session check (it is connected with accounts, and
`eth_accounts` returns a non-empty list), `signMessage` issues exactly one
`personal_sign` request, whose parameters are the `0x`-prefixed hexadecimal
UTF-8 bytes of the message and the lower-cased account, in this order; it
returns the result of that request when it resolves and throws its error when
it rejects. When no relay handle exists it returns the result of
`signer.signMessage(message)` of the provider's signer. -/
theorem signMessage_relay_personal_sign (w : World) (message : String)
    (provider : EthersProvider) (account : String) (replies : SignReplies)
    (haccount : account ≠ "") :
    (∀ (wc : WcProvider) (accounts : List String),
      w.handle = some wc → wc.inactive = false →
      replies.ethAccounts = .ok (some accounts) → accounts ≠ [] →
      (∀ signature, replies.personalSign = .ok signature →
        signMessage w message { provider := some provider, account := some account } replies =
          ({ w with state := { w.state with signature := some signature },
                    log := w.log ++ [.ethAccounts,
                      .personalSign (messageHex message) (toLowerCase account)] },
           .returned signature)) ∧
      (∀ e, replies.personalSign = .error e →
        (signMessage w message { provider := some provider, account := some account }
          replies).2 = .threw e ∧
        (signMessage w message { provider := some provider, account := some account }
          replies).1.log =
          w.log ++ [.ethAccounts, .personalSign (messageHex message) (toLowerCase account),
                    .toastError (getWalletErrorMessage e)])) ∧
    (∀ signature, w.handle = none → replies.getSigner = .resolved →
      replies.signerSignMessage = .ok signature →
      signMessage w message { provider := some provider, account := some account } replies =
        ({ w with state := { w.state with signature := some signature },
                  log := w.log ++ [.getSigner, .signerSignMessage message] },
         .returned signature)) := by
  have hacc : strOr (some account) w.state.account = some account := by
    simp [strOr, truthy, haccount]
  have htruthy : truthy (some account) = true := by simp [truthy, haccount]
  have hprov : (some provider <|> w.state.provider) = some provider := rfl
  refine ⟨?_, ?_⟩
  · intro wc accounts hh hactive heth hne
    have hlen : (accounts.length != 0) = true := by
      cases accounts with
      | nil => exact absurd rfl hne
      | cons a rest => rfl
    refine ⟨?_, ?_⟩
    · intro signature hsign
      unfold signMessage
      simp only [hprov, hacc, htruthy, hh, hactive, heth, hlen, hsign]
      simp [World.emit, World.dispatch, walletReducer, hh]
    · intro e hsign
      unfold signMessage
      simp only [hprov, hacc, htruthy, hh, hactive, heth, hlen, hsign]
      simp only [Bool.false_eq_true, if_false, Bool.not_true, Option.getD_some]
      refine ⟨rfl, ?_⟩
      unfold signMessageCatch
      split <;> (try split) <;> (try split) <;>
        simp [World.emit, World.dispatch, World.deleteHandle]
  · intro signature hh hsigner hsign
    unfold signMessage
    simp only [hprov, hacc, htruthy, hh, hsigner, hsign]
    simp [World.emit, World.dispatch, walletReducer, hh]

theorem signMessage_relay_personal_sign_witness :
    signMessage
        { handle := some { connected := true, accounts := some ["0xabcdef1234"],
                           session := true },
          state := initialState, localStorage := [], sessionStorage := [], log := [] }
        "Hi" { provider := some { relay := true, hasDisconnect := false },
               account := some "0xABCDEF1234" }
        { ethAccounts := .ok (some ["0xabcdef1234"]), personalSign := .ok "0x5161",
          getSigner := .resolved, signerSignMessage := .ok "0x0", connectedAtCatch := true } =
      ({ handle := some { connected := true, accounts := some ["0xabcdef1234"],
                          session := true },
         state := { initialState with signature := some "0x5161" },
         localStorage := [], sessionStorage := [],
         log := [.ethAccounts, .personalSign (messageHex "Hi") (toLowerCase "0xABCDEF1234")] },
       .returned "0x5161") :=
  ((signMessage_relay_personal_sign
      { handle := some { connected := true, accounts := some ["0xabcdef1234"],
                         session := true },
        state := initialState, localStorage := [], sessionStorage := [], log := [] }
      "Hi" { relay := true, hasDisconnect := false } "0xABCDEF1234"
      { ethAccounts := .ok (some ["0xabcdef1234"]), personalSign := .ok "0x5161",
        getSigner := .resolved, signerSignMessage := .ok "0x0", connectedAtCatch := true }
      (by decide)).1
    { connected := true, accounts := some ["0xabcdef1234"], session := true }
    ["0xabcdef1234"] rfl rfl rfl (by decide)).1 "0x5161" rfl

/-- C18, evaluated. A connect whose network is chain 137, a chain
`isValidChainId` rejects, ends connected with `chainId` 137 in the wallet state,
on the relay path and on the browser-extension path alike. In the wallet
service a connect on chain 137 whose network switch is refused leaves the
service connected with `chainId` 137, and `handleChainChanged` records whatever
chain it is given. -/
theorem connect_records_unsupported_chain :
    isValidChainId 137 = false ∧
    (connectWalletRun relayEnv freshWorld "walletconnect"
        [.provider freshProvider,
         .provider { connected := true, accounts := some ["0xabcdef1234"], session := true },
         .done, .address "0xABCDEF1234", .network 137, .balance "1.5"]).1.state.chainId =
      some 137 ∧
    (connectWalletRun relayEnv freshWorld "walletconnect"
        [.provider freshProvider,
         .provider { connected := true, accounts := some ["0xabcdef1234"], session := true },
         .done, .address "0xABCDEF1234", .network 137, .balance "1.5"]).1.state.isConnected =
      true ∧
    (connectWalletRun browserEnv freshWorld "metamask"
        [.accounts ["0xabcdef1234"], .done, .address "0xABCDEF1234", .network 137,
         .balance "1.5"]).1.state.chainId = some 137 ∧
    (connectWalletRun browserEnv freshWorld "metamask"
        [.accounts ["0xabcdef1234"], .done, .address "0xABCDEF1234", .network 137,
         .balance "1.5"]).1.state.isConnected = true ∧
    (Sys.run { ethereumIsMetaMask := true, projectId := "abc123" }
        [.connect "metamask", .settle 0 (.accounts ["0xabcdef1234"]), .settle 0 (.signer 7),
         .settle 0 (.network 137),
         .settle 0 (.error { code := some 4001, message := some "User rejected the request." })]
      ).svc.chainId = some 137 ∧
    (Sys.run { ethereumIsMetaMask := true, projectId := "abc123" }
        [.connect "metamask", .settle 0 (.accounts ["0xabcdef1234"]), .settle 0 (.signer 7),
         .settle 0 (.network 137),
         .settle 0 (.error { code := some 4001, message := some "User rejected the request." })]
      ).svc.isConnected = true ∧
    (handleChainChanged
        { provider := some .browser, signer := some 7, address := some "0xabcdef1234",
          chainId := some 1, isConnecting := false } 137).chainId = some 137 := by
  decide

/-- C19, evaluated. On the relay enable step a user rejection (SDK message
`User rejected.`) makes `connectWallet` throw `Connection was declined in your
wallet app. ...`, and the message stored in `state.error` is `Wallet connection
lost during process`; an enable timeout is stored as the same message. -/
theorem enable_failures_stored_as_connection_lost :
    (connectWalletRun relayEnv freshWorld "walletconnect"
        [.provider freshProvider,
         .enableFailed { code := some 5000, message := some "User rejected." } false]).2 =
      .threw (mkError
        "Connection was declined in your wallet app. Please try again and approve the connection request.") ∧
    (connectWalletRun relayEnv freshWorld "walletconnect"
        [.provider freshProvider,
         .enableFailed { code := some 5000, message := some "User rejected." } false]
      ).1.state.error = some "Wallet connection lost during process" ∧
    (connectWalletRun relayEnv freshWorld "walletconnect"
        [.provider freshProvider, .enableTimeout false]).2 =
      .threw (mkError
        "WalletConnect connection timed out - this may happen in Telegram miniapps. Please try again or use a different browser.") ∧
    (connectWalletRun relayEnv freshWorld "walletconnect"
        [.provider freshProvider, .enableTimeout false]).1.state.error =
      some "Wallet connection lost during process" := by
  decide

/-! ## Properties of the flow controller -/

/-- C11, as stated, fails. The disconnect action on the welcome step, the
backend call succeeding and the timer it sets firing, makes the backend
disconnect call and then the re-fetch of the user status, and ends on the
welcome step; the wallet-manager disconnect is not among what it does. -/
theorem disconnect_action_skips_wallet_manager :
    (refreshTimerFires
      (handleDisconnectWallet AppState.initial (some "0xABCDEF1234") .resolved)).log =
      [.backendDisconnect (some "0xABCDEF1234") false,
       .toastSuccess "üîì Wallet disconnected successfully!",
       .scheduleRefresh 1000, .refreshStatus] ∧
    AppEffect.walletDisconnect ∉
      (refreshTimerFires
        (handleDisconnectWallet AppState.initial (some "0xABCDEF1234") .resolved)).log ∧
    (refreshTimerFires
      (handleDisconnectWallet AppState.initial (some "0xABCDEF1234") .resolved)).currentStep =
      .welcome := by
  decide

/-- C11, as amended. The disconnect action makes the backend disconnect call
first; when that call succeeds it shows a toast and sets a timer of 1 s whose
callback re-fetches the user status, and when the call fails it reports the
error and sets no timer. It never calls the wallet-manager disconnect, and it
leaves the flow step as it was: started on the welcome step, where it is
offered, it ends on the welcome step. -/
theorem disconnect_action (app : AppState) (walletAddress : Option String) :
    ((handleDisconnectWallet app walletAddress .resolved).log =
        app.log ++ [.backendDisconnect walletAddress false,
                    .toastSuccess "üîì Wallet disconnected successfully!",
                    .scheduleRefresh 1000] ∧
      (refreshTimerFires (handleDisconnectWallet app walletAddress .resolved)).log =
        app.log ++ [.backendDisconnect walletAddress false,
                    .toastSuccess "üîì Wallet disconnected successfully!",
                    .scheduleRefresh 1000, .refreshStatus]) ∧
    (∀ e : JsError,
      (handleDisconnectWallet app walletAddress (.rejected e)).log =
        app.log ++ [.backendDisconnect walletAddress false,
                    .consoleError "Error disconnecting wallet:",
                    .toastError ("Failed to disconnect wallet: " ++ e.messageText)] ∧
      (handleDisconnectWallet app walletAddress (.rejected e)).pendingRefreshes =
        app.pendingRefreshes) ∧
    (∀ backend : Settled,
      (handleDisconnectWallet app walletAddress backend).currentStep = app.currentStep ∧
      (app.currentStep = .welcome →
        (refreshTimerFires (handleDisconnectWallet app walletAddress backend)).currentStep =
          .welcome) ∧
      (handleDisconnectWallet app walletAddress backend).isDisconnecting = false ∧
      (AppEffect.walletDisconnect ∉ app.log →
        AppEffect.walletDisconnect ∉
          (refreshTimerFires (handleDisconnectWallet app walletAddress backend)).log)) := by
  refine ⟨⟨?_, ?_⟩, ?_, ?_⟩
  · simp [handleDisconnectWallet, AppState.emit]
  · simp [handleDisconnectWallet, AppState.emit, refreshTimerFires]
  · intro e
    simp [handleDisconnectWallet, AppState.emit]
  · intro backend
    cases backend with
    | resolved =>
      refine ⟨rfl, ?_, rfl, ?_⟩
      · intro h
        simp [handleDisconnectWallet, AppState.emit, refreshTimerFires, h]
      · intro h
        simp [handleDisconnectWallet, AppState.emit, refreshTimerFires, h]
    | rejected e =>
      refine ⟨rfl, ?_, rfl, ?_⟩
      · intro h
        simp only [handleDisconnectWallet, AppState.emit, refreshTimerFires]
        split <;> simp [h]
      · intro h
        simp only [handleDisconnectWallet, AppState.emit, refreshTimerFires]
        split <;> simp [h]

theorem disconnect_action_witness :
    AppState.initial.currentStep = .welcome ∧
    (refreshTimerFires
      (handleDisconnectWallet AppState.initial (some "0xABCDEF1234") .resolved)).currentStep =
      .welcome :=
  ⟨rfl, ((disconnect_action AppState.initial (some "0xABCDEF1234")).2.2 .resolved).2.1 rfl⟩

/-- C20, evaluated. Whatever message `handleError` is given, the flow enters
the error step and the message goes to a toast only: the `VerificationStatus`
of the error step is rendered without `errorMessage`, so it offers the single
`Try Again` and shows its default text. This holds for the message `Wallet
connection lost - please reconnect`, which, had it been passed, would have
brought up the dual choice. -/
theorem error_step_gets_no_message (app : AppState) (m : String) :
    (handleError app m).currentStep = .error ∧
    (handleError app m).log = app.log ++ [.toastError m] ∧
    renderVerificationStatus (handleError app m) =
      some { step := .error, onSuccess := false, onError := false, onRetry := true,
             onReturnToBot := false, errorMessage := none } ∧
    (renderVerificationStatus (handleError app m)).map errorActions = some .tryAgain ∧
    (renderVerificationStatus (handleError app m)).map errorText =
      some "We couldn't verify your wallet. This might be due to a connection issue or cancelled transaction." ∧
    isConnectionError (some "Wallet connection lost - please reconnect") = true := by
  refine ⟨rfl, rfl, rfl, rfl, rfl, ?_⟩
  decide

/-! ## Properties of the validators -/

/-- The class `[0-9a-fA-F]` holds the hexadecimal digits and nothing else. -/
theorem hexClass_iff (c : Char) : hexClass c = true ↔ c ∈ hexDigits := by
  constructor
  · intro h
    have hc : Char.ofNat c.toNat = c := Char.ofNat_toNat c
    simp only [hexClass, Bool.or_eq_true, Bool.and_eq_true, decide_eq_true_eq] at h
    have h0 : ∀ d : Char, d ≤ c → d.toNat ≤ c.toNat := fun _ hd => hd
    have h1 : ∀ d : Char, c ≤ d → c.toNat ≤ d.toNat := fun _ hd => hd
    rcases h with (⟨ha, hb⟩ | ⟨ha, hb⟩) | ⟨ha, hb⟩
    all_goals
      have ha1 := h0 _ ha
      have hb1 := h1 _ hb
      simp only [Char.reduceToNat] at ha1 hb1
      generalize c.toNat = n at hc ha1 hb1
      subst hc
      interval_cases n <;> decide
  · intro h
    simp only [hexDigits, List.mem_cons, List.mem_singleton, List.not_mem_nil, or_false] at h
    rcases h with h | h | h | h | h | h | h | h | h | h | h | h | h | h | h | h | h | h | h | h |
      h | h <;> subst h <;> decide

/-- The pattern `[0-9a-fA-F]{n}$` matches the texts of `n` hexadecimal digits. -/
theorem matchHex_iff (n : Nat) (text : List Char) :
    matchHex n text = true ↔ text.length = n ∧ ∀ c ∈ text, c ∈ hexDigits := by
  induction n generalizing text with
  | zero => cases text <;> simp [matchHex]
  | succ n ih =>
    cases text with
    | nil => simp [matchHex]
    | cons c rest =>
      simp only [matchHex, Bool.and_eq_true, ih, hexClass_iff, List.length_cons,
        Nat.add_right_cancel_iff, List.mem_cons, forall_eq_or_imp]
      tauto

/-- The test `startsWith` with `slice(2)` removes one leading `0x`. -/
theorem drop_leading0x (text : List Char) :
    (if ['0', 'x'].isPrefixOf text = true then text.drop 2 else text) =
      withoutLeading0x text := by
  by_cases hp : ['0', 'x'].isPrefixOf text = true
  · rw [if_pos hp]
    rw [List.isPrefixOf_iff_prefix] at hp
    obtain ⟨t, ht⟩ := hp
    subst ht
    rfl
  · rw [if_neg hp]
    unfold withoutLeading0x
    split
    · exact absurd (List.isPrefixOf_iff_prefix.mpr ⟨_, rfl⟩) hp
    · rfl

/-- C25. `isValidSignature(s)` is true exactly when `s` is a string that, after
the removal of one leading `0x` when present, consists of exactly 130
hexadecimal digits of either case; so it is false for every value that is not a
string and for every empty, shorter, longer or non-hexadecimal string. -/
theorem isValidSignature_iff (v : JsValue) :
    isValidSignature v = true ↔
      ∃ s : String, v = .str s ∧ (withoutLeading0x s.data).length = 130 ∧
        ∀ c ∈ withoutLeading0x s.data, c ∈ hexDigits := by
  cases v with
  | other t => simp [isValidSignature]
  | str s =>
    simp only [isValidSignature, JsValue.str.injEq, exists_eq_left']
    by_cases hs : s = ""
    · subst hs
      simp [withoutLeading0x]
    · simp only [hs, if_false, matchHex_iff]
      rw [drop_leading0x]

/-- What `dropWhile` leaves does not start with a dropped character. -/
theorem dropWhile_head_false (p : Char → Bool) :
    ∀ (l : List Char) (a : Char) (rest : List Char), l.dropWhile p = a :: rest → p a = false
  | [], _, _, h => by simp at h
  | b :: l, a, rest, h => by
    by_cases hb : p b = true
    · rw [List.dropWhile_cons_of_pos hb] at h
      exact dropWhile_head_false p l a rest h
    · rw [List.dropWhile_cons_of_neg hb] at h
      cases h
      simpa using hb

/-- A trimmed text has nothing left to trim. -/
theorem trim_idempotent (text : List Char) : trim (trim text) = trim text := by
  unfold trim
  have hhead : List.dropWhile isTrimmed ((text.dropWhile isTrimmed).rdropWhile isTrimmed) =
      (text.dropWhile isTrimmed).rdropWhile isTrimmed := by
    obtain ⟨t, ht⟩ := List.rdropWhile_prefix isTrimmed (text.dropWhile isTrimmed)
    generalize (text.dropWhile isTrimmed).rdropWhile isTrimmed = r at ht ⊢
    cases r with
    | nil => rfl
    | cons a r1 =>
      have ha : isTrimmed a = false := dropWhile_head_false isTrimmed text a (r1 ++ t) ht.symm
      exact List.dropWhile_cons_of_neg (by simp [ha])
  rw [hhead, List.rdropWhile_idempotent]

/-- The characters of a trimmed text are characters of the text. -/
theorem mem_of_mem_trim {c : Char} {text : List Char} (h : c ∈ trim text) : c ∈ text :=
  (List.dropWhile_suffix isTrimmed).subset ((List.rdropWhile_prefix isTrimmed _).subset h)

/-- What `removeAngles` returns holds no angle bracket. -/
theorem removeAngles_free (text : List Char) :
    ∀ c ∈ removeAngles text, c ≠ '<' ∧ c ≠ '>' := by
  intro c hc
  simp only [removeAngles, List.mem_filter, Bool.not_eq_true', Bool.or_eq_false_iff,
    decide_eq_false_iff_not] at hc
  exact hc.2

/-- A text without angle brackets is left as it is. -/
theorem removeAngles_of_free (text : List Char) (h : ∀ c ∈ text, c ≠ '<' ∧ c ≠ '>') :
    removeAngles text = text := by
  unfold removeAngles
  rw [List.filter_eq_self]
  intro c hc
  simp [h c hc]

/-- On a text without angle brackets, trimming and removing twice is the same
as once. -/
theorem sanitize_twice_of_free (text : List Char) (h : ∀ c ∈ text, c ≠ '<' ∧ c ≠ '>') :
    removeAngles (trim (removeAngles (trim text))) = removeAngles (trim text) := by
  have h1 : removeAngles (trim text) = trim text :=
    removeAngles_of_free _ (fun c hc => h c (mem_of_mem_trim hc))
  rw [h1, trim_idempotent, h1]

/-- C29, the failing case. `sanitizeInput` is not idempotent: it trims before
it removes the angle brackets, so `"< a"` becomes `" a"`, which a second
application turns into `"a"`. -/
theorem sanitizeInput_not_idempotent :
    sanitizeInput (.str "< a") = " a" ∧
    sanitizeInput (.str (sanitizeInput (.str "< a"))) = "a" ∧
    sanitizeInput (.str (sanitizeInput (.str "< a"))) ≠ sanitizeInput (.str "< a") := by
  decide

/-- C29, amended. For every string `x` the result of `sanitizeInput` holds no
angle bracket; a second application changes nothing when `x` holds no angle
bracket; and for every `x` a third application changes nothing after the
second. -/
theorem sanitizeInput_stable (x : String) :
    (∀ c ∈ (sanitizeInput (.str x)).data, c ≠ '<' ∧ c ≠ '>') ∧
    ((∀ c ∈ x.data, c ≠ '<' ∧ c ≠ '>') →
      sanitizeInput (.str (sanitizeInput (.str x))) = sanitizeInput (.str x)) ∧
    sanitizeInput (.str (sanitizeInput (.str (sanitizeInput (.str x))))) =
      sanitizeInput (.str (sanitizeInput (.str x))) := by
  refine ⟨removeAngles_free _, ?_, ?_⟩
  · intro h
    simp only [sanitizeInput]
    rw [sanitize_twice_of_free _ h]
  · simp only [sanitizeInput]
    rw [sanitize_twice_of_free _ (removeAngles_free _)]

/-- C29, amended: the theorem at the input `"  a b "`, which `sanitizeInput`
turns into `"a b"`. -/
theorem sanitizeInput_stable_witness :
    (∀ c ∈ "  a b ".data, c ≠ '<' ∧ c ≠ '>') ∧
    sanitizeInput (.str (sanitizeInput (.str "  a b "))) = sanitizeInput (.str "  a b ") :=
  ⟨by decide, (sanitizeInput_stable "  a b ").2.1 (by decide)⟩

/-- C30. The message `VERIFICATION_MESSAGE` that `handleConnectWallet` signs
and submits is rejected by `validateSignatureMessage`: it does not contain
`SIGNATURE_CONFIG.message`. The message `generateVerificationMessage` builds is
accepted, for every clock value and every configured domain. -/
theorem verification_message_rejected :
    validateSignatureMessage VERIFICATION_MESSAGE = false ∧
    ∀ (VITE_APP_DOMAIN : Option String) (now : Nat),
      validateSignatureMessage (generateVerificationMessage VITE_APP_DOMAIN now).message =
        true := by
  constructor
  · decide
  · intro d now
    simp only [validateSignatureMessage, generateVerificationMessage, Bool.and_eq_true,
      bne_iff_ne, ne_eq]
    constructor
    · intro h
      have h1 := congrArg String.data h
      simp only [String.data_append, List.append_assoc] at h1
      have h2 : SIGNATURE_CONFIG.message.data = [] := (List.append_eq_nil.mp h1).1
      exact absurd h2 (by decide)
    · rw [includes_iff]
      simp only [String.data_append, List.append_assoc]
      exact List.infix_append' [] _ _

/-- C22, the failing case. `handleConnectWallet` submits a signature that
`validateWalletInput` rejects, even with an address check that accepts every
address: the wallet answers the signature request with `0x1234`, which is not
130 hexadecimal digits, and the handler calls `verifyWallet` with it. -/
theorem verifyWallet_called_on_malformed_signature :
    (validateWalletInput (fun _ => some true) (.str "0xABCDEF1234")
      (.str "0x1234")).isValid = false ∧
    handleConnectWalletResume { isTelegramMiniApp := true, isTelegramReady := true } freshWorld
        Component.initial (.signature "0xABCDEF1234") (.signature (some "0x1234")) =
      some (Component.initial.emit
              [.toastDismiss "signature", .toastDismiss "signature-instructions",
               .toastLoading "Verifying with server...",
               .verifyWallet { walletAddress := "0xABCDEF1234", signature := "0x1234",
                               message := VERIFICATION_MESSAGE }],
            .awaiting .verification) := by
  decide

/-- C22, amended. `handleConnectWallet` tests what it submits for presence
only. It asks for the signature only when the connection result carries a
non-empty account, and it keeps that account as the address. It calls
`verifyWallet`, with that address, the signature and `VERIFICATION_MESSAGE`,
exactly when `signMessage` returned a non-empty value, whatever its form; when
the value is missing or empty it fails with `Failed to get signature from
wallet` and makes no call. -/
theorem verifyWallet_called_on_present_input (cenv : ComponentEnv) (w : World) (c : Component) :
    (∀ (connectionResult : Option CwResult) (c1 : Component) (walletAddress : String),
      handleConnectWalletResume cenv w c .connection (.connected connectionResult) =
        some (c1, .awaiting (.signature walletAddress)) →
      walletAddress ≠ "" ∧ ∃ r, connectionResult = some r ∧ r.account = walletAddress) ∧
    (∀ (walletAddress : String) (signature : Option String),
      handleConnectWalletResume cenv w c (.signature walletAddress) (.signature signature) =
        if truthy signature then
          some (c.emit [.toastDismiss "signature", .toastDismiss "signature-instructions",
                        .toastLoading "Verifying with server...",
                        .verifyWallet { walletAddress := walletAddress,
                                        signature := signature.getD "",
                                        message := VERIFICATION_MESSAGE }],
                .awaiting .verification)
        else some (hcCatch c (mkError "Failed to get signature from wallet"))) := by
  constructor
  · intro connectionResult c1 walletAddress h
    cases connectionResult with
    | none => simp [handleConnectWalletResume, hcCatch] at h
    | some r =>
      by_cases ha : r.account = ""
      · simp [handleConnectWalletResume, hcCatch, ha] at h
      · simp only [handleConnectWalletResume, ha, if_false] at h
        split at h
        · simp [hcCatch] at h
        · simp only [Option.some.injEq, Prod.mk.injEq, HcProgress.awaiting.injEq,
            HcAwait.signature.injEq] at h
          obtain ⟨-, h2⟩ := h
          exact ⟨h2 ▸ ha, r, rfl, h2⟩
  · intro walletAddress signature
    cases signature with
    | none => simp [handleConnectWalletResume, truthy]
    | some s => by_cases hs : s = "" <;> simp [handleConnectWalletResume, truthy, hs]

/-- C22, amended: the theorem at a connection result with the account
`0xABCDEF1234` on a freshly loaded page. -/
theorem verifyWallet_called_on_present_input_witness :
    "0xABCDEF1234" ≠ "" ∧
    ∃ r : CwResult,
      some ({ provider := { relay := false, hasDisconnect := false },
              account := "0xABCDEF1234", chainId := 1, balance := "1.0" } : CwResult) =
        some r ∧
      r.account = "0xABCDEF1234" :=
  (verifyWallet_called_on_present_input { isTelegramMiniApp := false, isTelegramReady := true }
    freshWorld Component.initial).1
    (some { provider := { relay := false, hasDisconnect := false },
            account := "0xABCDEF1234", chainId := 1, balance := "1.0" })
    _ "0xABCDEF1234" rfl

/-! ## Properties of the error mapping and of `retryRequest` -/

/-- C23, the failing case. A response `503` whose body carries an `error` field
is not mapped to the server-error message: the thrown error repeats the field. -/
theorem handleApiError_relays_error_of_503 :
    handleApiErrorCall (.axios (statusError statusRequest 503
        (some { token := none, error := some "Service Unavailable", payload := "" }))) =
      .threw (mkError "Service Unavailable") ∧
    mkError "Service Unavailable" ≠ mkError ERROR_MESSAGES.SERVER_ERROR := by
  decide

/-- C23, amended. `handleApiError` never returns normally; for a response with
status `500` the thrown message is the server-error message whatever the body,
and for every other status from `501` to `599` it is the `error` field of the
body when that is a non-empty string and the server-error message otherwise. -/
theorem handleApiError_server_status (error : Thrown) :
    (∃ thrown, handleApiErrorCall error = .threw thrown) ∧
    ∀ (e : AxiosError) (status : Nat) (data : Option Body),
      error = .axios e → e.response = some (status, data) → 500 ≤ status → status ≤ 599 →
      handleApiErrorCall error =
        .threw (mkError
          (if status = 500 ∨ truthy (data.bind Body.error) = false then
            ERROR_MESSAGES.SERVER_ERROR
           else (data.bind Body.error).getD "")) := by
  refine ⟨⟨_, rfl⟩, ?_⟩
  intro e status data herror hresponse h500 h599
  subst herror
  simp only [handleApiErrorCall, handleApiError, hresponse]
  have h400 : status ≠ 400 := by omega
  have h401 : status ≠ 401 := by omega
  have h403 : status ≠ 403 := by omega
  have h429 : status ≠ 429 := by omega
  simp only [h400, h401, h403, h429, if_false]
  by_cases hs : status = 500
  · simp [hs]
  · by_cases ht : truthy (data.bind Body.error) = true
    · simp [hs, ht]
    · simp [hs, ht]

/-- C23, amended: the theorem at a response `502` whose body is not JSON. -/
theorem handleApiError_server_status_witness :
    handleApiErrorCall (.axios (statusError statusRequest 502 none)) =
      .threw (mkError ERROR_MESSAGES.SERVER_ERROR) :=
  (handleApiError_server_status (.axios (statusError statusRequest 502 none))).2
    (statusError statusRequest 502 none) 502 none rfl rfl (by decide) (by decide)

/-- The loop of `retryRequest` from the iteration `i` on: it makes the calls
`i` to `calls - 1`, all but the last of which failed with an error that is not a
client error, and it ends with what the last call gave. -/
theorem retryLoop_calls {α : Type} (requestFn : Nat → Except Thrown α) (left : Nat) :
    ∀ (i : Nat) (delays : List Nat),
      i + 1 ≤ (retryLoop requestFn left i delays).calls ∧
      (retryLoop requestFn left i delays).calls ≤ i + left + 1 ∧
      (∀ j, i ≤ j → j + 1 < (retryLoop requestFn left i delays).calls →
        ∃ e, requestFn j = .error e ∧ clientError e = false) ∧
      (∀ value, requestFn ((retryLoop requestFn left i delays).calls - 1) = .ok value →
        (retryLoop requestFn left i delays).result = .returned value) ∧
      (∀ error, requestFn ((retryLoop requestFn left i delays).calls - 1) = .error error →
        (retryLoop requestFn left i delays).result = .threw error ∧
        ((retryLoop requestFn left i delays).calls = i + left + 1 ∨
          clientError error = true)) := by
  induction left with
  | zero =>
    intro i delays
    unfold retryLoop
    cases hr : requestFn i with
    | ok value =>
      simp only [Nat.add_sub_cancel, hr]
      refine ⟨le_refl _, by omega, fun j h1 h2 => by omega, fun v hv => ?_, fun e he => ?_⟩
      · cases hv; rfl
      · cases he
    | error error =>
      simp only [Nat.add_sub_cancel, hr]
      refine ⟨le_refl _, by omega, fun j h1 h2 => by omega, fun v hv => ?_, fun e he => ?_⟩
      · cases hv
      · cases he; exact ⟨rfl, by simp⟩
  | succ left ih =>
    intro i delays
    unfold retryLoop
    cases hr : requestFn i with
    | ok value =>
      simp only [Nat.add_sub_cancel, hr]
      refine ⟨le_refl _, by omega, fun j h1 h2 => by omega, fun v hv => ?_, fun e he => ?_⟩
      · cases hv; rfl
      · cases he
    | error error =>
      by_cases hc : clientError error = true
      · simp only [hc, if_true, Nat.add_sub_cancel, hr]
        refine ⟨le_refl _, by omega, fun j h1 h2 => by omega, fun v hv => ?_, fun e he => ?_⟩
        · cases hv
        · cases he; exact ⟨rfl, Or.inr hc⟩
      · have hc1 : clientError error = false := by simpa using hc
        simp only [hc1, Bool.false_eq_true, if_false]
        obtain ⟨h1, h2, h3, h4, h5⟩ := ih (i + 1) (delays ++ [retryDelay * 2 ^ i])
        refine ⟨by omega, by omega, fun j hj1 hj2 => ?_, h4, fun e he => ?_⟩
        · by_cases hji : j = i
          · subst hji
            exact ⟨error, hr, hc1⟩
          · exact h3 j (by omega) hj2
        · obtain ⟨h6, h7⟩ := h5 e he
          exact ⟨h6, h7.imp (fun h => by omega) id⟩

/-- C24. For every behaviour of `requestFn` and every `maxRetries`,
`retryRequest` makes at least one and at most `maxRetries + 1` calls; every call
but the last it makes failed with an error that is not a client error, so it
calls neither after a success nor after a failure with a status from 400 to
499; and it ends with what its last call gave: the value when that call
succeeded, the error of that call when it failed, and then that call was call
number `maxRetries + 1` or a client error. -/
theorem retryRequest_calls {α : Type} (requestFn : Nat → Except Thrown α) (maxRetries : Nat) :
    1 ≤ (retryRequest requestFn maxRetries).calls ∧
    (retryRequest requestFn maxRetries).calls ≤ maxRetries + 1 ∧
    (∀ j, j + 1 < (retryRequest requestFn maxRetries).calls →
      ∃ e, requestFn j = .error e ∧ clientError e = false) ∧
    (∀ value, requestFn ((retryRequest requestFn maxRetries).calls - 1) = .ok value →
      (retryRequest requestFn maxRetries).result = .returned value) ∧
    (∀ error, requestFn ((retryRequest requestFn maxRetries).calls - 1) = .error error →
      (retryRequest requestFn maxRetries).result = .threw error ∧
      ((retryRequest requestFn maxRetries).calls = maxRetries + 1 ∨
        clientError error = true)) := by
  obtain ⟨h1, h2, h3, h4, h5⟩ := retryLoop_calls requestFn maxRetries 0 []
  refine ⟨by simpa using h1, by simpa using h2, fun j hj => h3 j (Nat.zero_le j) hj, h4, ?_⟩
  intro e he
  obtain ⟨h6, h7⟩ := h5 e he
  exact ⟨h6, h7.imp (fun h => by simpa using h) id⟩

/-- C24: the theorem at a request function that fails twice without a response
and then succeeds, with three retries allowed: the third call is the last, and
its value is returned. -/
theorem retryRequest_calls_witness :
    (retryRequest flakyRequest 3).calls = 3 ∧
    (retryRequest flakyRequest 3).result = .returned "done" :=
  ⟨rfl, (retryRequest_calls flakyRequest 3).2.2.2.1 "done" rfl⟩

/-! ## Properties of the readiness poll, the refresh and the flow controller -/

/-- The readiness poll from any state in which fewer than `maxAttempts` checks
were made. -/
theorem checkReadiness_from (hostReady : Nat → Bool) (n : Nat) :
    ∀ st : Readiness, maxAttempts - st.attempts = n → st.attempts < maxAttempts →
      st.attempts < (checkReadiness hostReady st).attempts ∧
      (checkReadiness hostReady st).attempts ≤ maxAttempts ∧
      (checkReadiness hostReady st).isReady = true ∧
      (checkReadiness hostReady st).setIsReadyCalls = st.setIsReadyCalls + 1 ∧
      (checkReadiness hostReady st).scheduled + st.attempts + 1 =
        st.scheduled + (checkReadiness hostReady st).attempts ∧
      (checkReadiness hostReady st).timerSet = false ∧
      (∀ k, st.attempts < k → k < (checkReadiness hostReady st).attempts →
        hostReady k = false) ∧
      (hostReady (checkReadiness hostReady st).attempts = true ∨
        (checkReadiness hostReady st).attempts = maxAttempts) := by
  induction n with
  | zero =>
    intro st h1 h2
    omega
  | succ n ih =>
    intro st h1 h2
    rw [checkReadiness]
    by_cases hr : hostReady (st.attempts + 1) = true
    · simp only [hr, if_true]
      exact ⟨by omega, by omega, by simp, by simp, by omega, by simp,
        fun k hk1 hk2 => by omega, by simp [hr]⟩
    · have hr1 : hostReady (st.attempts + 1) = false := by simpa using hr
      simp only [hr1, Bool.false_eq_true, if_false]
      by_cases hm : st.attempts + 1 ≥ maxAttempts
      · simp only [hm, if_true]
        exact ⟨by omega, by omega, by simp, by simp, by omega, by simp,
          fun k hk1 hk2 => by omega, Or.inr (by omega)⟩
      · simp only [hm, if_false]
        obtain ⟨g1, g2, g3, g4, g5, g6, g7, g8⟩ :=
          ih { st with attempts := st.attempts + 1, timerSet := true,
                       scheduled := st.scheduled + 1 }
            (by simp only; omega) (by simp only; omega)
        simp only at g1 g2 g3 g4 g5 g6 g7 g8
        refine ⟨by omega, g2, g3, g4, by omega, g6, fun k hk1 hk2 => ?_, g8⟩
        by_cases hk : k = st.attempts + 1
        · subst hk; exact hr1
        · exact g7 k (by omega) hk2

/-- C26. The readiness poll of the Telegram provider ends, whatever the host
reports: it makes at least one and at most 50 checks, it calls
`setIsReady(true)` exactly once, on its last check, which is the first check at
which the host reports ready or else the 50th, every check but the last has
set one timer, and no timer is left set. -/
theorem checkReadiness_terminates (hostReady : Nat → Bool) :
    1 ≤ (checkReadiness hostReady Readiness.initial).attempts ∧
    (checkReadiness hostReady Readiness.initial).attempts ≤ 50 ∧
    (checkReadiness hostReady Readiness.initial).isReady = true ∧
    (checkReadiness hostReady Readiness.initial).setIsReadyCalls = 1 ∧
    (checkReadiness hostReady Readiness.initial).scheduled + 1 =
      (checkReadiness hostReady Readiness.initial).attempts ∧
    (checkReadiness hostReady Readiness.initial).timerSet = false ∧
    (∀ k, 1 ≤ k → k < (checkReadiness hostReady Readiness.initial).attempts →
      hostReady k = false) ∧
    (hostReady (checkReadiness hostReady Readiness.initial).attempts = true ∨
      (checkReadiness hostReady Readiness.initial).attempts = 50) := by
  obtain ⟨g1, g2, g3, g4, g5, g6, g7, g8⟩ :=
    checkReadiness_from hostReady 50 Readiness.initial rfl (by decide)
  simp only [Readiness.initial, maxAttempts] at g1 g2 g3 g4 g5 g6 g7 g8 ⊢
  exact ⟨by omega, g2, g3, by omega, by omega, g6, fun k hk1 hk2 => g7 k (by omega) hk2, g8⟩

/-- C21. The re-verify button sets the step to `connecting` and does nothing
else: the page of the wallet component is as before, so `connectWallet` was not
called and no connect call is running. -/
theorem reverify_starts_no_connect (s : Screen) :
    (Screen.reverifyClicked s).app.currentStep = .connecting ∧
    (Screen.reverifyClicked s).page = s.page :=
  ⟨rfl, rfl⟩

/-- The sibling path of C21: a click on the relay wallet button of a freshly
loaded screen sets the step to `connecting` and calls `connectWallet`, which
runs up to `EthereumProvider.init`. -/
theorem connect_click_starts_connect :
    (Screen.connectClicked { isTelegramMiniApp := false, isTelegramReady := true } relayEnv false
        Screen.initial "walletconnect").app.currentStep = .connecting ∧
    FlowEffect.connectWallet "walletconnect" ∈
      (Screen.connectClicked { isTelegramMiniApp := false, isTelegramReady := true } relayEnv
        false Screen.initial "walletconnect").page.component.log ∧
    (Screen.connectClicked { isTelegramMiniApp := false, isTelegramReady := true } relayEnv false
        Screen.initial "walletconnect").page.connectCall = some (.awaiting .init) := by
  decide

/-- C28. After a connect that succeeded, a second call of `connectWallet`
leaves the wallet state with `isConnected` and `isConnecting` both true: the
action `SET_CONNECTING` keeps `isConnected`. -/
theorem connected_and_connecting :
    connectedWorld.state.isConnected = true ∧ connectedWorld.state.isConnecting = false ∧
    (connectWallet browserEnv connectedWorld "metamask").1.state.isConnected = true ∧
    (connectWallet browserEnv connectedWorld "metamask").1.state.isConnecting = true := by
  decide

/-- C27, an evaluation. Against a backend that answers `401` to the
authentication request as well, the handling of one `401` sends three
authentication requests when the backend answers that often, and starts a
fourth refresh. -/
theorem unauthorized_auth_example :
    authRequestCount (apiClient telegramHost 10
      { token := some "stale", script := refusingServer 3, events := [] }
      statusRequest).1.events = 3 ∧
    refreshCount (apiClient telegramHost 10
      { token := some "stale", script := refusingServer 3, events := [] }
      statusRequest).1.events = 4 := by
  decide

/-! ## The refresh against a backend that refuses the authentication request -/

/-- The count of authentication requests is additive. -/
theorem authRequestCount_append (a b : List ApiEvent) :
    authRequestCount (a ++ b) = authRequestCount a + authRequestCount b := by
  simp [authRequestCount, List.countP_append]

/-- The request interceptor leaves the address of a request as it is. -/
theorem requestInterceptor_url (s : ApiState) (config : Request) :
    (requestInterceptor s config).url = config.url := by
  unfold requestInterceptor
  split <;> rfl

/-- The authentication requests on the page on which a refresh starts. -/
theorem refreshStart_count (tg : TelegramEnv) (s : ApiState) (config : Request)
    (rest : List NetReply) :
    authRequestCount (refreshStart tg s config rest).events =
      authRequestCount s.events + (if config.url = "/api/auth/telegram" then 1 else 0) := by
  simp only [refreshStart, ApiState.note, List.append_assoc, authRequestCount_append]
  by_cases hu : config.url = "/api/auth/telegram" <;>
    simp [authRequestCount, List.countP_cons, requestInterceptor_url, hu]

/-- `authenticateTelegram` whose two probes pass and whose request fails ends
with the authentication error, on the page the request left. -/
theorem authenticateWith_request_failed (client : ApiState → Request → ApiState × ApiResult)
    (st : ApiState) (telegramData : String) (error : AxiosError)
    (hcors : corsPasses (st.wire (.fetch (baseURL ++ "/api/debug/cors-test"))).2 = true)
    (hhealth : healthPasses ((st.wire (.fetch (baseURL ++ "/api/debug/cors-test"))).1.wire
      (.fetch (baseURL ++ "/health"))).2 = true)
    (hposted : (client ((st.wire (.fetch (baseURL ++ "/api/debug/cors-test"))).1.wire
      (.fetch (baseURL ++ "/health"))).1 (authRequest telegramData)).2 = .failed error) :
    authenticateWith client st telegramData =
      ((client ((st.wire (.fetch (baseURL ++ "/api/debug/cors-test"))).1.wire
          (.fetch (baseURL ++ "/health"))).1 (authRequest telegramData)).1,
       .failed (mkError ERROR_MESSAGES.UNAUTHORIZED)) := by
  unfold authenticateWith
  simp only [hcors, hhealth, hposted, Bool.not_true, Bool.false_eq_true, if_false]

/-- Against a backend that answers `401` to the authentication request as
well, the refreshes nest: the handling of one `401` ends with an error only
when the backend stops answering, and it has then sent as many authentication
requests as the backend answered. -/
theorem apiClient_refusing (n : Nat) :
    ∀ (fuel : Nat) (s : ApiState) (config : Request),
      n < fuel → s.script = refusingServer n → config.retry = false →
      (∃ error, (apiClient telegramHost fuel s config).2 = .failed error) ∧
      authRequestCount (apiClient telegramHost fuel s config).1.events =
        authRequestCount s.events +
          (if config.url = "/api/auth/telegram" then 1 else 0) + n := by
  induction n with
  | zero =>
    intro fuel s config hfuel hscript hretry
    obtain ⟨f, rfl⟩ : ∃ f, fuel = f + 1 := ⟨fuel - 1, by omega⟩
    have he : authenticateTelegram telegramHost f (refreshStart telegramHost s config [])
        (telegramHost.initData.getD "") =
        ((refreshStart telegramHost s config []).note
            (.fetch (baseURL ++ "/api/debug/cors-test")),
          .failed (mkError ERROR_MESSAGES.UNAUTHORIZED)) := rfl
    have h := apiClient_unauthorized_refresh_failed telegramHost f s config _ [] _ hretry
      (by rw [hscript]; rfl) rfl (by rw [he])
    rw [h, he]
    refine ⟨⟨_, rfl⟩, ?_⟩
    simp only [ApiState.note, authRequestCount_append, refreshStart_count]
    simp [authRequestCount]
  | succ n ih =>
    intro fuel s config hfuel hscript hretry
    obtain ⟨f, rfl⟩ : ∃ f, fuel = f + 1 := ⟨fuel - 1, by omega⟩
    have hn : n < f := by omega
    obtain ⟨⟨error, hposted⟩, hcount⟩ := ih f
      (((refreshStart telegramHost s config
          (probeReply :: probeReply :: refusingServer n)).wire
            (.fetch (baseURL ++ "/api/debug/cors-test"))).1.wire
              (.fetch (baseURL ++ "/health"))).1
      (authRequest (telegramHost.initData.getD "")) hn rfl rfl
    have hauth := authenticateWith_request_failed (apiClient telegramHost f)
      (refreshStart telegramHost s config (probeReply :: probeReply :: refusingServer n))
      (telegramHost.initData.getD "") error rfl rfl hposted
    have h := apiClient_unauthorized_refresh_failed telegramHost f s config _
      (probeReply :: probeReply :: refusingServer n) _ hretry
      (by rw [hscript]; rfl) rfl (by rw [authenticateTelegram, hauth])
    rw [h, authenticateTelegram, hauth]
    refine ⟨⟨_, rfl⟩, ?_⟩
    rw [hcount]
    have hev : (((refreshStart telegramHost s config
          (probeReply :: probeReply :: refusingServer n)).wire
            (.fetch (baseURL ++ "/api/debug/cors-test"))).1.wire
              (.fetch (baseURL ++ "/health"))).1.events =
        (refreshStart telegramHost s config
          (probeReply :: probeReply :: refusingServer n)).events ++
          [.fetch (baseURL ++ "/api/debug/cors-test"), .fetch (baseURL ++ "/health")] := by
      simp [ApiState.wire, ApiState.note, refreshStart]
    rw [hev, authRequestCount_append, refreshStart_count]
    simp [authRequestCount, authRequest]
    omega

/-- C27. The handling of one `401` is not bounded: against a backend that
answers `401` to the authentication request as well, the client sends as many
authentication requests as the backend answers, for every number `n` of such
answers, and it ends with an error only when the answers end. The call is
allowed `n + 1` nested calls or more, which is enough for it to end. -/
theorem unauthorized_refresh_unbounded (n extra : Nat) :
    (∃ error, (apiClient telegramHost (n + 1 + extra)
      { token := some "stale", script := refusingServer n, events := [] }
      statusRequest).2 = .failed error) ∧
    authRequestCount (apiClient telegramHost (n + 1 + extra)
      { token := some "stale", script := refusingServer n, events := [] }
      statusRequest).1.events = n := by
  have h := apiClient_refusing n (n + 1 + extra)
    { token := some "stale", script := refusingServer n, events := [] } statusRequest
    (by omega) rfl rfl
  refine ⟨h.1, ?_⟩
  rw [h.2]
  simp [authRequestCount, statusRequest]

end BundleAlert
